import Mathlib

set_option maxHeartbeats 1000000

/-!
Shallow embedding of the ABN bulk-extract pipeline: the functions
`delete_records`, `element_handle`, `bulk_insert`, `generate_bulk_insert`,
`write_to_error_file`, `remove_duplicates`, `process_files` and the job
`extract_and_load` of `app/abn-extract/abn_extract/assets.py`, together with
the table classes of `app/postgres_table_creation.py`.

Python runtime values handled by the pipeline (ints, strings, dates, dicts)
are modelled explicitly.  The BeautifulSoup document tree of one input line
is modelled by structures holding exactly the elements and attributes the
code navigates; `Option` marks elements or attributes that may be absent.
Python exceptions are modelled by `Except PyErr`: navigating `.foo` or
`['k']` from `None` raises (AttributeError / TypeError), a missing tag
attribute raises KeyError, and `int()` / `datetime.strptime` raise
ValueError — only ValueError is ever caught by the source code, so the
three kinds are kept distinct.
-/

/-- Python exception classes that the modelled code can raise.  Only
`valueError` is ever caught (the `except ValueError` retry blocks).
`integrityError` models the database error SQLAlchemy raises when
`session.execute(insert(Table), [])` is given an empty parameter list: the
empty list does not take the zero-row bulk path, the bare INSERT is
executed without its required binds, and the statement fails. -/
inductive PyErr
  | noneError
  | keyError
  | valueError
  | integrityError
deriving DecidableEq, Repr

/-- Result of `datetime.strptime(s, "%Y%m%d").date()`: a calendar date. -/
structure DateV where
  year : Nat
  month : Nat
  day : Nat
deriving DecidableEq, Repr

/-- Python values stored in the row dictionaries built by `process_files`. -/
inductive PyVal
  | intV (i : Int)
  | strV (s : String)
  | dateV (d : DateV)
deriving DecidableEq, Repr

/-- Python truthiness of a value, as used by `any(d.values())` in
`remove_duplicates`: `0` and `''` are falsy, a `date` object is truthy. -/
def PyVal.truthy : PyVal → Bool
  | .intV i => i != 0
  | .strV s => s != ""
  | .dateV _ => true

/-- A Python dict as the association list of its items, in insertion order. -/
abbrev PyDict := List (String × PyVal)

/-- Navigating a child element: `tag.Child` yields the element when present;
using the result of a failed lookup (`None.attr`) raises. -/
def getEl : Option α → Except PyErr α
  | none => .error .noneError
  | some x => .ok x

/-- Reading a tag attribute `tag['k']`: raises KeyError when absent. -/
def getAttr : Option String → Except PyErr String
  | none => .error .keyError
  | some v => .ok v

/-- A leaf element whose `.text` the code reads. -/
structure TextEl where
  text : String
deriving DecidableEq, Repr

/-- Reading `.text` of a possibly-absent element: `None.text` raises. -/
def textOf : Option TextEl → Except PyErr String
  | none => .error .noneError
  | some t => .ok t.text

/-- Source `element_handle`: `try: return input.text except: return ''` —
the bare `except` swallows the AttributeError raised on `None`. -/
def element_handle : Option TextEl → String
  | none => ""
  | some t => t.text

/-- Value of a non-empty decimal digit string. -/
def digitsToNat (l : List Char) : Nat :=
  l.foldl (fun n c => 10 * n + (c.toNat - 48)) 0

/-- Strip leading and trailing whitespace from a character list. -/
def trimChars (l : List Char) : List Char :=
  ((l.dropWhile Char.isWhitespace).reverse.dropWhile Char.isWhitespace).reverse

/-- Python `int(s)`: optional sign, non-empty digit string, surrounding
whitespace allowed; anything else raises ValueError. -/
def pyInt (s : String) : Except PyErr Int :=
  match trimChars s.toList with
  | '-' :: rest =>
    if rest ≠ [] ∧ rest.all Char.isDigit then .ok (-(digitsToNat rest : Int))
    else .error .valueError
  | '+' :: rest =>
    if rest ≠ [] ∧ rest.all Char.isDigit then .ok (digitsToNat rest : Int)
    else .error .valueError
  | t =>
    if t ≠ [] ∧ t.all Char.isDigit then .ok (digitsToNat t : Int)
    else .error .valueError

/-- Python `s or d` on strings: the empty string is falsy. -/
def pyOr (s d : String) : String := if s = "" then d else s

/-- Python `datetime.strptime(s, "%Y%m%d").date()`: eight digits, month and
day in range, else ValueError (a model of the external datetime library). -/
def pyStrptimeYmd (s : String) : Except PyErr DateV :=
  if s.length == 8 && s.toList.all Char.isDigit then
    let y := digitsToNat (s.toList.take 4)
    let m := digitsToNat ((s.toList.drop 4).take 2)
    let d := digitsToNat (s.toList.drop 6)
    if 1 ≤ m ∧ m ≤ 12 ∧ 1 ≤ d ∧ d ≤ 31 then .ok ⟨y, m, d⟩
    else .error .valueError
  else .error .valueError

/-- Python `try: A except ValueError: B` — only ValueError triggers the
retry; every other exception propagates. -/
def exceptValueError (attempt retry : Except PyErr α) : Except PyErr α :=
  match attempt with
  | .error .valueError => retry
  | r => r

/-- A `for`-loop that appends `f x` for each `x`, aborting on the first
exception (models the list-building loops over `find_all` results). -/
def mapExcept (f : α → Except PyErr β) : List α → Except PyErr (List β)
  | [] => .ok []
  | x :: xs =>
    match f x with
    | .error e => .error e
    | .ok y =>
      match mapExcept f xs with
      | .error e => .error e
      | .ok ys => .ok (y :: ys)

/-! Document-tree model: one structure per element the code navigates,
with `Option` for possibly-absent children and attributes. -/

/-- The `ABN` element: its text plus the `status` / `ABNStatusFromDate`
attributes. -/
structure AbnEl where
  text : String
  status : Option String
  abnStatusFromDate : Option String
deriving DecidableEq, Repr

/-- The `EntityType` element with its two text children. -/
structure EntityTypeEl where
  entityTypeInd : Option TextEl
  entityTypeText : Option TextEl
deriving DecidableEq, Repr

/-- A `NonIndividualName` element: `type` attribute, own text, and the
`NonIndividualNameText` child used by the DGR / OtherEntity blocks. -/
structure NonIndividualNameEl where
  typeAttr : Option String
  text : String
  nonIndividualNameText : Option TextEl
deriving DecidableEq, Repr

/-- The `AddressDetails` element with `State` and `Postcode` children. -/
structure AddressDetailsEl where
  state : Option TextEl
  postcode : Option TextEl
deriving DecidableEq, Repr

/-- The `BusinessAddress` element. -/
structure BusinessAddressEl where
  addressDetails : Option AddressDetailsEl
deriving DecidableEq, Repr

/-- The `MainEntity` element. -/
structure MainEntityEl where
  nonIndividualName : Option NonIndividualNameEl
  businessAddress : Option BusinessAddressEl
deriving DecidableEq, Repr

/-- The `IndividualName` element: `type` attribute, `GivenName` and
`FamilyName` children. -/
structure IndividualNameEl where
  typeAttr : Option String
  givenName : Option TextEl
  familyName : Option TextEl
deriving DecidableEq, Repr

/-- The `LegalEntity` element. -/
structure LegalEntityEl where
  individualName : Option IndividualNameEl
  businessAddress : Option BusinessAddressEl
deriving DecidableEq, Repr

/-- The `ASICNumber` element: its text and the `ASICNumberType` attribute. -/
structure AsicEl where
  text : String
  asicNumberType : Option String
deriving DecidableEq, Repr

/-- The `GST` element with its `status` / `GSTStatusFromDate` attributes. -/
structure GstEl where
  status : Option String
  gstStatusFromDate : Option String
deriving DecidableEq, Repr

/-- One `DGR` element as visited by `soup.find_all('DGR')`. -/
structure DgrEl where
  dgrStatusFromDate : Option String
  nonIndividualName : Option NonIndividualNameEl
deriving DecidableEq, Repr

/-- One `OtherEntity` element as visited by `soup.find_all('OtherEntity')`. -/
structure OtherEntityEl where
  nonIndividualName : Option NonIndividualNameEl
deriving DecidableEq, Repr

/-- The `ABR` root of one fragment.  The `dgr` / `otherEntity` lists model
`find_all`; `soup.ABR.DGR` is truthy exactly when the list is non-empty. -/
structure ABREl where
  abn : Option AbnEl
  entityType : Option EntityTypeEl
  mainEntity : Option MainEntityEl
  legalEntity : Option LegalEntityEl
  asicNumber : Option AsicEl
  gst : Option GstEl
  dgr : List DgrEl
  otherEntity : List OtherEntityEl
deriving DecidableEq, Repr

/-! Row models of the table classes in `postgres_table_creation.py`. -/

/-- Row of the `abn` table. -/
structure ABN where
  abn : Int
  abn_status : String
  abn_status_from_date : DateV
  entity_type_indicator : String
  entity_type_text : String
deriving DecidableEq, Repr

/-- Row of the `main_entity` table. -/
structure MainEntity where
  abn_id : Int
  main_entity_type : String
  main_entity_name : String
  address_state : String
  address_postcode : Int
deriving DecidableEq, Repr

/-- Row of the `legal_entity` table. -/
structure LegalEntity where
  abn_id : Int
  legal_entity_type : String
  legal_entity_name : String
  address_state : String
  address_postcode : Int
deriving DecidableEq, Repr

/-- Row of the `asic_number` table. -/
structure ASICNumber where
  abn_id : Int
  asic_number : String
  asic_type : String
deriving DecidableEq, Repr

/-- Row of the `gst` table. -/
structure GST where
  abn_id : Int
  status : String
  status_from_date : DateV
deriving DecidableEq, Repr

/-- Row of the `dgr` table. -/
structure DGR where
  abn_id : Int
  status_from_date : DateV
  name : String
deriving DecidableEq, Repr

/-- Row of the `other_entity` table. -/
structure OtherEntity where
  abn_id : Int
  other_entity_type : String
  other_entity_name : String
deriving DecidableEq, Repr

/-- The expression `int(soup.ABR.ABN.text)`, re-evaluated by every block of
`generate_bulk_insert`. -/
def abnIdOf (soup : ABREl) : Except PyErr Int := do
  let a ← getEl soup.abn
  pyInt a.text

/-- The `MainEntity(...)` constructor call of `generate_bulk_insert`.
`override = false` is the `try` branch (postcode from
`int(... .Postcode.text or '0')`); `override = true` is the
`except ValueError` branch, which repeats every expression but uses
`int('0')` for the postcode. -/
def mkMainEntity (soup : ABREl) (override : Bool) : Except PyErr MainEntity := do
  let abn_id ← abnIdOf soup
  let me ← getEl soup.mainEntity
  let nin ← getEl me.nonIndividualName
  let mtype ← getAttr nin.typeAttr
  let mname := nin.text
  let ba ← getEl me.businessAddress
  let ad ← getEl ba.addressDetails
  let state ← textOf ad.state
  let postcode ←
    if override then pyInt "0"
    else do
      let pct ← textOf ad.postcode
      pyInt (pyOr pct "0")
  .ok ⟨abn_id, mtype, mname, state, postcode⟩

/-- The `LegalEntity(...)` constructor call, with the same
try / except-ValueError postcode structure, and the name composed as
`element_handle(GivenName) + ' ' + FamilyName.text`. -/
def mkLegalEntity (soup : ABREl) (override : Bool) : Except PyErr LegalEntity := do
  let abn_id ← abnIdOf soup
  let le ← getEl soup.legalEntity
  let iname ← getEl le.individualName
  let ltype ← getAttr iname.typeAttr
  let fam ← textOf iname.familyName
  let lname := element_handle iname.givenName ++ " " ++ fam
  let ba ← getEl le.businessAddress
  let ad ← getEl ba.addressDetails
  let state ← textOf ad.state
  let postcode ←
    if override then pyInt "0"
    else do
      let pct ← textOf ad.postcode
      pyInt (pyOr pct "0")
  .ok ⟨abn_id, ltype, lname, state, postcode⟩

/-- The `ASICNumber(...)` constructor call. -/
def mkASICNumber (soup : ABREl) : Except PyErr ASICNumber := do
  let abn_id ← abnIdOf soup
  let a ← getEl soup.asicNumber
  let t ← getAttr a.asicNumberType
  .ok ⟨abn_id, a.text, t⟩

/-- The `GST(...)` constructor call. -/
def mkGST (soup : ABREl) : Except PyErr GST := do
  let abn_id ← abnIdOf soup
  let g ← getEl soup.gst
  let st ← getAttr g.status
  let d ← pyStrptimeYmd (← getAttr g.gstStatusFromDate)
  .ok ⟨abn_id, st, d⟩

/-- One iteration of the `for dgr_entry in soup.find_all('DGR')` loop. -/
def mkDGRentry (soup : ABREl) (entry : DgrEl) : Except PyErr DGR := do
  let abn_id ← abnIdOf soup
  let d ← pyStrptimeYmd (← getAttr entry.dgrStatusFromDate)
  let nin ← getEl entry.nonIndividualName
  let t ← textOf nin.nonIndividualNameText
  .ok ⟨abn_id, d, t⟩

/-- One iteration of the `for other_entity_entry in
soup.find_all('OtherEntity')` loop. -/
def mkOtherEntityEntry (soup : ABREl) (entry : OtherEntityEl) :
    Except PyErr OtherEntity := do
  let abn_id ← abnIdOf soup
  let nin ← getEl entry.nonIndividualName
  let t ← getAttr nin.typeAttr
  let n ← textOf nin.nonIndividualNameText
  .ok ⟨abn_id, t, n⟩

/-- The `if soup.ABR.MainEntity:` block of `generate_bulk_insert`. -/
def mainEntityField (soup : ABREl) : Except PyErr (Option (List MainEntity)) :=
  match soup.mainEntity with
  | none => .ok none
  | some _ =>
    match exceptValueError (mkMainEntity soup false) (mkMainEntity soup true) with
    | .error e => .error e
    | .ok row => .ok (some [row])

/-- The `if soup.ABR.LegalEntity:` block of `generate_bulk_insert`. -/
def legalEntityField (soup : ABREl) : Except PyErr (Option (List LegalEntity)) :=
  match soup.legalEntity with
  | none => .ok none
  | some _ =>
    match exceptValueError (mkLegalEntity soup false) (mkLegalEntity soup true) with
    | .error e => .error e
    | .ok row => .ok (some [row])

/-- The `if soup.ABR.ASICNumber:` block of `generate_bulk_insert`. -/
def asicNumberField (soup : ABREl) : Except PyErr (Option (List ASICNumber)) :=
  match soup.asicNumber with
  | none => .ok none
  | some _ =>
    match mkASICNumber soup with
    | .error e => .error e
    | .ok row => .ok (some [row])

/-- The `if soup.ABR.GST:` block of `generate_bulk_insert`. -/
def gstField (soup : ABREl) : Except PyErr (Option (List GST)) :=
  match soup.gst with
  | none => .ok none
  | some _ =>
    match mkGST soup with
    | .error e => .error e
    | .ok row => .ok (some [row])

/-- The `if soup.ABR.DGR:` block of `generate_bulk_insert`. -/
def dgrField (soup : ABREl) : Except PyErr (Option (List DGR)) :=
  match soup.dgr with
  | [] => .ok none
  | _ =>
    match mapExcept (mkDGRentry soup) soup.dgr with
    | .error e => .error e
    | .ok rows => .ok (some rows)

/-- The `if soup.ABR.OtherEntity:` block of `generate_bulk_insert`. -/
def otherEntityField (soup : ABREl) : Except PyErr (Option (List OtherEntity)) :=
  match soup.otherEntity with
  | [] => .ok none
  | _ =>
    match mapExcept (mkOtherEntityEntry soup) soup.otherEntity with
    | .error e => .error e
    | .ok rows => .ok (some rows)

/-- The dictionary returned by `generate_bulk_insert`: key `'abn'` is always
set; each optional key is present exactly when its block ran. -/
structure ReturnDict where
  abn : List ABN
  main_entity : Option (List MainEntity)
  legal_entity : Option (List LegalEntity)
  asic_number : Option (List ASICNumber)
  gst : Option (List GST)
  dgr : Option (List DGR)
  other_entity : Option (List OtherEntity)
deriving DecidableEq, Repr

/-- Source `generate_bulk_insert`: normalize one fragment into the per-kind
entity lists.  Any uncaught exception aborts the whole fragment (and, since
the caller does not catch it, the whole run). -/
def generate_bulk_insert (soup : ABREl) : Except PyErr ReturnDict := do
  let abnVal ← abnIdOf soup
  let abnEl ← getEl soup.abn
  let st ← getAttr abnEl.status
  let dt ← pyStrptimeYmd (← getAttr abnEl.abnStatusFromDate)
  let etEl ← getEl soup.entityType
  let ind ← textOf etEl.entityTypeInd
  let ett ← textOf etEl.entityTypeText
  let abnRow : ABN := ⟨abnVal, st, dt, ind, ett⟩
  let me ← mainEntityField soup
  let le ← legalEntityField soup
  let asic ← asicNumberField soup
  let g ← gstField soup
  let d ← dgrField soup
  let oe ← otherEntityField soup
  .ok ⟨[abnRow], me, le, asic, g, d, oe⟩

/-! Deduplication, the store model, and the pipeline driver. -/

/-- The condition `any(d.values())` of `remove_duplicates`. -/
def anyTruthy (d : PyDict) : Bool := d.any (fun kv => kv.2.truthy)

/-- Lexicographic code-point comparison of character lists, as Python
compares strings. -/
def charListLe : List Char → List Char → Bool
  | [], _ => true
  | _ :: _, [] => false
  | a :: as, b :: bs =>
    if a.toNat < b.toNat then true
    else if b.toNat < a.toNat then false
    else charListLe as bs

/-- Python string `<=`. -/
def strLe (a b : String) : Bool := charListLe a.toList b.toList

/-- The canonical form `tuple(sorted(d.items()))` of a dict: its items
sorted by key (keys are unique within a dict, so the key ordering decides). -/
def canonDict (d : PyDict) : PyDict :=
  List.insertionSort (fun a b : String × PyVal => strLe a.1 b.1 = true) d

/-- Source `remove_duplicates`: drop dicts with no truthy value, collapse
dicts with the same sorted item tuple, and return the canonical dicts.  The
Python `set` iteration order is arbitrary; the model fixes first-occurrence
order, and only membership and multiplicity of the result are relied on. -/
def remove_duplicates (dictionaries : List PyDict) : List PyDict :=
  ((dictionaries.filter anyTruthy).map canonDict).dedup

/-- The `__dict__` projection of an `ABN` row built by `process_files`
(`{k: v for k, v in val.__dict__.items() if not k.startswith('_')}`). -/
def toDictABN (r : ABN) : PyDict :=
  [("abn", .intV r.abn), ("abn_status", .strV r.abn_status),
   ("abn_status_from_date", .dateV r.abn_status_from_date),
   ("entity_type_indicator", .strV r.entity_type_indicator),
   ("entity_type_text", .strV r.entity_type_text)]

/-- The `__dict__` projection of a `MainEntity` row. -/
def toDictMainEntity (r : MainEntity) : PyDict :=
  [("abn_id", .intV r.abn_id), ("main_entity_type", .strV r.main_entity_type),
   ("main_entity_name", .strV r.main_entity_name),
   ("address_state", .strV r.address_state),
   ("address_postcode", .intV r.address_postcode)]

/-- The `__dict__` projection of a `LegalEntity` row. -/
def toDictLegalEntity (r : LegalEntity) : PyDict :=
  [("abn_id", .intV r.abn_id), ("legal_entity_type", .strV r.legal_entity_type),
   ("legal_entity_name", .strV r.legal_entity_name),
   ("address_state", .strV r.address_state),
   ("address_postcode", .intV r.address_postcode)]

/-- The `__dict__` projection of an `ASICNumber` row. -/
def toDictASICNumber (r : ASICNumber) : PyDict :=
  [("abn_id", .intV r.abn_id), ("asic_number", .strV r.asic_number),
   ("asic_type", .strV r.asic_type)]

/-- The `__dict__` projection of a `GST` row. -/
def toDictGST (r : GST) : PyDict :=
  [("abn_id", .intV r.abn_id), ("status", .strV r.status),
   ("status_from_date", .dateV r.status_from_date)]

/-- The `__dict__` projection of a `DGR` row. -/
def toDictDGR (r : DGR) : PyDict :=
  [("abn_id", .intV r.abn_id), ("status_from_date", .dateV r.status_from_date),
   ("name", .strV r.name)]

/-- The `__dict__` projection of an `OtherEntity` row. -/
def toDictOtherEntity (r : OtherEntity) : PyDict :=
  [("abn_id", .intV r.abn_id), ("other_entity_type", .strV r.other_entity_type),
   ("other_entity_name", .strV r.other_entity_name)]

/-- The seven tables of the schema. -/
inductive TableId
  | abn
  | main_entity
  | legal_entity
  | asic_number
  | gst
  | dgr
  | other_entity
deriving DecidableEq, Repr

/-- The persistent store: one row list per table (rows as dicts of column
values, matching what `session.execute(insert(Table), dicts)` writes). -/
structure Store where
  abn : List PyDict
  main_entity : List PyDict
  legal_entity : List PyDict
  asic_number : List PyDict
  gst : List PyDict
  dgr : List PyDict
  other_entity : List PyDict
deriving DecidableEq, Repr

/-- The store with every table empty. -/
def emptyStore : Store := ⟨[], [], [], [], [], [], []⟩

/-- Effect of one `session.execute(delete(Table))` statement. -/
def clearTable (s : Store) : TableId → Store
  | .abn => { s with abn := [] }
  | .main_entity => { s with main_entity := [] }
  | .legal_entity => { s with legal_entity := [] }
  | .asic_number => { s with asic_number := [] }
  | .gst => { s with gst := [] }
  | .dgr => { s with dgr := [] }
  | .other_entity => { s with other_entity := [] }

/-- The delete statements of `delete_records`, in source order: the six
dependent tables first, the `abn` parent table last. -/
def delete_records_stmts : List TableId :=
  [.main_entity, .legal_entity, .asic_number, .gst, .dgr, .other_entity, .abn]

/-- Source `delete_records`: execute the seven deletes and commit once. -/
def delete_records (s : Store) : Store :=
  delete_records_stmts.foldl clearTable s

/-- The store states reached after each prefix of the delete statements of
`delete_records`, inside its single transaction (index 0 is the initial
state, index 7 the state that is committed). -/
def deleteStates (s : Store) : List Store :=
  (List.range (delete_records_stmts.length + 1)).map
    (fun k => (delete_records_stmts.take k).foldl clearTable s)

/-- Effect of one `session.execute(insert(Table), rows)` statement:
append the rows to the table. -/
def insertTable (s : Store) : TableId × List PyDict → Store
  | (.abn, rows) => { s with abn := s.abn ++ rows }
  | (.main_entity, rows) => { s with main_entity := s.main_entity ++ rows }
  | (.legal_entity, rows) => { s with legal_entity := s.legal_entity ++ rows }
  | (.asic_number, rows) => { s with asic_number := s.asic_number ++ rows }
  | (.gst, rows) => { s with gst := s.gst ++ rows }
  | (.dgr, rows) => { s with dgr := s.dgr ++ rows }
  | (.other_entity, rows) => { s with other_entity := s.other_entity ++ rows }

/-- The per-kind row-dict lists accumulated by `process_files` for one
file (the `records` dict, whose seven keys are always present). -/
structure Records where
  abn : List PyDict
  main_entity : List PyDict
  legal_entity : List PyDict
  asic_number : List PyDict
  gst : List PyDict
  dgr : List PyDict
  other_entity : List PyDict
deriving DecidableEq, Repr

/-- The freshly initialised `records` dict. -/
def emptyRecords : Records := ⟨[], [], [], [], [], [], []⟩

/-- The insert statements executed by one `bulk_insert` call, in source
order: the `abn` parent table first, then the six dependent tables. -/
def bulk_insert_stmts (r : Records) : List (TableId × List PyDict) :=
  [(.abn, r.abn), (.main_entity, r.main_entity),
   (.legal_entity, r.legal_entity), (.asic_number, r.asic_number),
   (.gst, r.gst), (.dgr, r.dgr), (.other_entity, r.other_entity)]

/-- One `session.execute(insert(Table), rows)` statement.  A non-empty
`rows` list is a bulk insert that appends the rows; an empty list is not a
zero-row insert — SQLAlchemy executes the bare INSERT without parameters
and the statement raises. -/
def execInsert (s : Store) (stmt : TableId × List PyDict) : Except PyErr Store :=
  match stmt with
  | (t, rows) =>
    if rows = [] then .error .integrityError
    else .ok (insertTable s (t, rows))

/-- Execute insert statements in order inside one session; the first
failing statement aborts the rest. -/
def execStmts (s : Store) : List (TableId × List PyDict) → Except PyErr Store
  | [] => .ok s
  | stmt :: rest =>
    match execInsert s stmt with
    | .error e => .error e
    | .ok s2 => execStmts s2 rest

/-- Source `bulk_insert`: execute the seven inserts in order and commit
once at the end.  On any statement failure the session context manager
rolls the whole transaction back, so the committed store is unchanged. -/
def bulk_insert (s : Store) (r : Records) : Except PyErr Store :=
  execStmts s (bulk_insert_stmts r)

/-- Merging the dictionary returned by `generate_bulk_insert` into the
`records` accumulator: every present key is appended, via the `__dict__`
projection of each row. -/
def mergeRecords (recs : Records) (d : ReturnDict) : Records :=
  { abn := recs.abn ++ d.abn.map toDictABN
    main_entity := recs.main_entity ++
      (match d.main_entity with
       | some v => v.map toDictMainEntity
       | none => [])
    legal_entity := recs.legal_entity ++
      (match d.legal_entity with
       | some v => v.map toDictLegalEntity
       | none => [])
    asic_number := recs.asic_number ++
      (match d.asic_number with
       | some v => v.map toDictASICNumber
       | none => [])
    gst := recs.gst ++
      (match d.gst with
       | some v => v.map toDictGST
       | none => [])
    dgr := recs.dgr ++
      (match d.dgr with
       | some v => v.map toDictDGR
       | none => [])
    other_entity := recs.other_entity ++
      (match d.other_entity with
       | some v => v.map toDictOtherEntity
       | none => []) }

/-- One parsed line of an input file: `none` models a line that fails the
scanner check (`root.find('ABR') is None`) and is skipped; `some root`
models a line whose `ABR` fragment reaches `generate_bulk_insert`.  The
`except ET.ParseError` branch of the source is dead code (BeautifulSoup
does not raise it), so parsing itself never fails in the model. -/
abbrev ParsedLine := Option ABREl

/-- The per-file line loop of `process_files`: skip scanner-rejected lines,
normalize the rest, accumulate into `records`; the first uncaught exception
aborts the file (and, in the caller, the run). -/
def fileRecords (recs : Records) : List ParsedLine → Except PyErr Records
  | [] => .ok recs
  | none :: rest => fileRecords recs rest
  | some soup :: rest =>
    match generate_bulk_insert soup with
    | .error e => .error e
    | .ok d => fileRecords (mergeRecords recs d) rest

/-- The payload actually passed to `bulk_insert` for one file: the
accumulated records with `remove_duplicates` applied to the `dgr` and
`other_entity` lists. -/
def dedupePayload (recs : Records) : Records :=
  { recs with
    dgr := remove_duplicates recs.dgr
    other_entity := remove_duplicates recs.other_entity }

/-- One entry of the input directory: `os.path.isdir` entries are skipped,
other entries are files of parsed lines. -/
inductive DirEntry
  | subdir (nm : String)
  | fileEntry (nm : String) (lines : List ParsedLine)

/-- Outcome of one `process_files` run: the committed store, the payload of
every `bulk_insert` call made (in order), the deleted file names (in
order), the `(context, detail)` pairs written to the error sink
(`write_to_error_file` is never invoked by the pipeline, so this stays
empty), and the uncaught exception, if any, that aborted the run. -/
structure RunResult where
  store : Store
  inserts : List Records
  deleted : List String
  errorLog : List (String × String)
  err : Option PyErr
deriving Repr

/-- Source `write_to_error_file`: append the two lines to `error.txt`.
Defined in the source but never called by any pipeline function. -/
def write_to_error_file (log : List (String × String)) (text1 text2 : String) :
    List (String × String) :=
  log ++ [(text1, text2)]

/-- The directory loop of `process_files`.  Each file is processed with a
fresh `records` dict; a successful file ends with one `bulk_insert` call
(its own session and commit) and `os.remove`; an uncaught exception —
whether raised during normalization or by the insert statements — stops
the run at once, leaving the current and remaining files undeleted. -/
def processFilesGo (s : Store) (ins : List Records) (del : List String) :
    List DirEntry → RunResult
  | [] => ⟨s, ins, del, [], none⟩
  | .subdir _ :: rest => processFilesGo s ins del rest
  | .fileEntry nm lines :: rest =>
    match fileRecords emptyRecords lines with
    | .error e => ⟨s, ins, del, [], some e⟩
    | .ok recs =>
      match bulk_insert s (dedupePayload recs) with
      | .error e => ⟨s, ins, del, [], some e⟩
      | .ok s2 =>
        processFilesGo s2 (ins ++ [dedupePayload recs]) (del ++ [nm]) rest

/-- Source `process_files` applied to a store and a directory listing. -/
def process_files (s : Store) (dir : List DirEntry) : RunResult :=
  processFilesGo s [] [] dir

/-- The dagster `@job` body of `extract_and_load` invokes `delete_records()`
and `process_files(...)` with no data dependency between them, so the job
graph contains no edge ordering the purge before the load: dagster may run
the two independent ops in either order.  Each op is a single database
transaction, so the admissible executions are modelled by the two
op-level linearizations. -/
inductive JobOrder
  | purgeThenLoad
  | loadThenPurge
deriving DecidableEq, Repr

/-- Source job `extract_and_load` under one admissible op-level schedule:
both ops always run (neither depends on the other's output), in the order
the schedule picks. -/
def extract_and_load (ord : JobOrder) (s : Store) (dir : List DirEntry) :
    RunResult :=
  match ord with
  | .purgeThenLoad => process_files (delete_records s) dir
  | .loadThenPurge =>
    let r := process_files s dir
    { r with store := delete_records r.store }

/-- One SQL statement of a run, tagged by the table it touches. -/
inductive RunOp
  | purgeStmt (t : TableId)
  | insertStmt (t : TableId) (rows : List PyDict)
deriving DecidableEq, Repr

/-- Whether a run statement is a purge statement. -/
def RunOp.isPurge : RunOp → Bool
  | .purgeStmt _ => true
  | .insertStmt _ _ => false

/-- The insert statements of a sequence of `bulk_insert` calls. -/
def insertOpsOf : List Records → List RunOp
  | [] => []
  | r :: t =>
    (bulk_insert_stmts r).map (fun p => RunOp.insertStmt p.1 p.2) ++
      insertOpsOf t

/-- The statement trace of one run of `extract_and_load` under a given
op-level schedule: the seven deletes of `delete_records` and the insert
statements of every `bulk_insert` call that was reached, in the order the
schedule ran the two ops. -/
def run_ops (ord : JobOrder) (s : Store) (dir : List DirEntry) : List RunOp :=
  match ord with
  | .purgeThenLoad =>
    delete_records_stmts.map RunOp.purgeStmt ++
      insertOpsOf (extract_and_load .purgeThenLoad s dir).inserts
  | .loadThenPurge =>
    insertOpsOf (extract_and_load .loadThenPurge s dir).inserts ++
      delete_records_stmts.map RunOp.purgeStmt

/-- One committed transaction of a run: `delete_records` commits once, and
each per-file `bulk_insert` commits once. -/
inductive Txn
  | purgeTxn
  | insertTxn (r : Records)
deriving Repr

/-- Effect of a committed transaction on the store (a failed insert
transaction is rolled back and leaves the store unchanged). -/
def applyTxn (s : Store) : Txn → Store
  | .purgeTxn => delete_records s
  | .insertTxn r =>
    match bulk_insert s r with
    | .ok s2 => s2
    | .error _ => s

/-- The committed-transaction sequence of a purge-first run: the purge
transaction, then one insert transaction per successfully processed
file. -/
def run_txns (s : Store) (dir : List DirEntry) : List Txn :=
  .purgeTxn :: (extract_and_load .purgeThenLoad s dir).inserts.map .insertTxn

/-- The persistent store after the run fails inside transaction `k`
(0-based): transactions `0 .. k-1` are already committed, transaction `k`
is rolled back by the session context manager, and the run aborts. -/
def committedAfterFailure (s : Store) (dir : List DirEntry) (k : Nat) : Store :=
  ((run_txns s dir).take k).foldl applyTxn s

/-! Inversion lemmas for the `Except`-monad embedding. -/

/-- Successful bind in the `Except` monad splits into two successes. -/
theorem bind_ok_iff (x : Except PyErr α) (f : α → Except PyErr β) (b : β) :
    (x >>= f) = .ok b ↔ ∃ a, x = .ok a ∧ f a = .ok b := by
  cases x <;> simp [Bind.bind, Except.bind]

/-- Element navigation succeeds exactly on present elements. -/
theorem getEl_ok_iff (o : Option α) (a : α) : getEl o = .ok a ↔ o = some a := by
  cases o <;> simp [getEl]

/-- Attribute access succeeds exactly on present attributes. -/
theorem getAttr_ok_iff (o : Option String) (v : String) :
    getAttr o = .ok v ↔ o = some v := by
  cases o <;> simp [getAttr]

/-- Text access succeeds exactly on present elements, yielding their text. -/
theorem textOf_ok_iff (o : Option TextEl) (s : String) :
    textOf o = .ok s ↔ ∃ t, o = some t ∧ t.text = s := by
  cases o <;> simp [textOf]

/-- The only exception `pyInt` raises is ValueError. -/
theorem pyInt_error_eq {s : String} {e : PyErr} (h : pyInt s = .error e) :
    e = .valueError := by
  simp only [pyInt] at h
  split at h <;> split at h <;> cases h <;> rfl

/-- Evaluating `int('0')`. -/
theorem pyInt_zero : pyInt "0" = .ok 0 := rfl

/-- A successful `try/except ValueError` comes from a successful attempt or
from a ValueError followed by a successful retry. -/
theorem exceptValueError_ok {a b : Except PyErr α} {r : α}
    (h : exceptValueError a b = .ok r) :
    a = .ok r ∨ (a = .error .valueError ∧ b = .ok r) := by
  unfold exceptValueError at h
  split at h
  · exact Or.inr ⟨rfl, h⟩
  · exact Or.inl h

/-- Every element of a successful `mapExcept` run comes from a successful
application of `f` to some input element. -/
theorem mapExcept_ok_mem {f : α → Except PyErr β} {l : List α} {ys : List β}
    (h : mapExcept f l = .ok ys) {y : β} (hy : y ∈ ys) :
    ∃ x ∈ l, f x = .ok y := by
  induction l generalizing ys with
  | nil =>
    unfold mapExcept at h
    cases h
    cases hy
  | cons x xs ih =>
    unfold mapExcept at h
    cases hfx : f x with
    | error e => rw [hfx] at h; cases h
    | ok b =>
      rw [hfx] at h
      cases hrest : mapExcept f xs with
      | error e => rw [hrest] at h; cases h
      | ok bs =>
        rw [hrest] at h
        cases h
        cases hy with
        | head => exact ⟨x, List.mem_cons_self x xs, hfx⟩
        | tail _ hy =>
          obtain ⟨x', hx', hfx'⟩ := ih hrest hy
          exact ⟨x', List.mem_cons_of_mem _ hx', hfx'⟩


/-- Full inversion of a successful `MainEntity(...)` construction. -/
theorem mkMainEntity_ok_inv {soup : ABREl} {ov : Bool} {row : MainEntity}
    (h : mkMainEntity soup ov = .ok row) :
    ∃ me nin ba ad st,
      abnIdOf soup = .ok row.abn_id ∧
      soup.mainEntity = some me ∧
      me.nonIndividualName = some nin ∧
      nin.typeAttr = some row.main_entity_type ∧
      row.main_entity_name = nin.text ∧
      me.businessAddress = some ba ∧
      ba.addressDetails = some ad ∧
      ad.state = some st ∧ row.address_state = st.text ∧
      (if ov then row.address_postcode = 0
       else ∃ pc, ad.postcode = some pc ∧
         pyInt (pyOr pc.text "0") = .ok row.address_postcode) := by
  cases ov with
  | false =>
    simp only [mkMainEntity, Bool.false_eq_true, if_false, bind_ok_iff,
      getEl_ok_iff, getAttr_ok_iff, textOf_ok_iff] at h
    obtain ⟨abnVal, habn, me, hme, nin, hnin, mt, hmt, ba, hba, ad, had,
      stv, ⟨st, hst, hsttext⟩, pct, ⟨pc, hpc, hpctext⟩, pcv, hpcv, hrow⟩ := h
    cases hrow
    exact ⟨me, nin, ba, ad, st, habn, hme, hnin, hmt, rfl, hba, had, hst,
      hsttext.symm, by
        simp only [Bool.false_eq_true, if_false]
        exact ⟨pc, hpc, by rw [hpctext]; exact hpcv⟩⟩
  | true =>
    simp only [mkMainEntity, if_true, bind_ok_iff,
      getEl_ok_iff, getAttr_ok_iff, textOf_ok_iff] at h
    obtain ⟨abnVal, habn, me, hme, nin, hnin, mt, hmt, ba, hba, ad, had,
      stv, ⟨st, hst, hsttext⟩, pcv, hpcv, hrow⟩ := h
    cases hrow
    refine ⟨me, nin, ba, ad, st, habn, hme, hnin, hmt, rfl, hba, had, hst,
      hsttext.symm, ?_⟩
    simp only [if_true]
    rw [pyInt_zero] at hpcv
    cases hpcv
    rfl

/-- Full inversion of a successful `LegalEntity(...)` construction. -/
theorem mkLegalEntity_ok_inv {soup : ABREl} {ov : Bool} {row : LegalEntity}
    (h : mkLegalEntity soup ov = .ok row) :
    ∃ le iname ba ad st,
      abnIdOf soup = .ok row.abn_id ∧
      soup.legalEntity = some le ∧
      le.individualName = some iname ∧
      iname.typeAttr = some row.legal_entity_type ∧
      (∃ fam, iname.familyName = some fam ∧
        row.legal_entity_name = element_handle iname.givenName ++ " " ++ fam.text) ∧
      le.businessAddress = some ba ∧
      ba.addressDetails = some ad ∧
      ad.state = some st ∧ row.address_state = st.text ∧
      (if ov then row.address_postcode = 0
       else ∃ pc, ad.postcode = some pc ∧
         pyInt (pyOr pc.text "0") = .ok row.address_postcode) := by
  cases ov with
  | false =>
    simp only [mkLegalEntity, Bool.false_eq_true, if_false, bind_ok_iff,
      getEl_ok_iff, getAttr_ok_iff, textOf_ok_iff] at h
    obtain ⟨abnVal, habn, le, hle, iname, hiname, lt, hlt,
      famv, ⟨fam, hfam, hfamtext⟩, ba, hba, ad, had,
      stv, ⟨st, hst, hsttext⟩, pct, ⟨pc, hpc, hpctext⟩, pcv, hpcv, hrow⟩ := h
    cases hrow
    exact ⟨le, iname, ba, ad, st, habn, hle, hiname, hlt,
      ⟨fam, hfam, by rw [hfamtext]⟩, hba, had, hst, hsttext.symm, by
        simp only [Bool.false_eq_true, if_false]
        exact ⟨pc, hpc, by rw [hpctext]; exact hpcv⟩⟩
  | true =>
    simp only [mkLegalEntity, if_true, bind_ok_iff,
      getEl_ok_iff, getAttr_ok_iff, textOf_ok_iff] at h
    obtain ⟨abnVal, habn, le, hle, iname, hiname, lt, hlt,
      famv, ⟨fam, hfam, hfamtext⟩, ba, hba, ad, had,
      stv, ⟨st, hst, hsttext⟩, pcv, hpcv, hrow⟩ := h
    cases hrow
    refine ⟨le, iname, ba, ad, st, habn, hle, hiname, hlt,
      ⟨fam, hfam, by rw [hfamtext]⟩, hba, had, hst, hsttext.symm, ?_⟩
    simp only [if_true]
    rw [pyInt_zero] at hpcv
    cases hpcv
    rfl

/-- A successful `ASICNumber(...)` construction carries the fragment's
identifier. -/
theorem mkASICNumber_ok_abn {soup : ABREl} {row : ASICNumber}
    (h : mkASICNumber soup = .ok row) : abnIdOf soup = .ok row.abn_id := by
  simp only [mkASICNumber, bind_ok_iff, getEl_ok_iff, getAttr_ok_iff] at h
  obtain ⟨abnVal, habn, a, ha, t, ht, hrow⟩ := h
  cases hrow
  exact habn

/-- A successful `GST(...)` construction carries the fragment's
identifier. -/
theorem mkGST_ok_abn {soup : ABREl} {row : GST}
    (h : mkGST soup = .ok row) : abnIdOf soup = .ok row.abn_id := by
  simp only [mkGST, bind_ok_iff, getEl_ok_iff, getAttr_ok_iff] at h
  obtain ⟨abnVal, habn, g, hg, st, hst, ds, hds, d, hd, hrow⟩ := h
  cases hrow
  exact habn

/-- A successful `DGR(...)` construction carries the fragment's
identifier. -/
theorem mkDGRentry_ok_abn {soup : ABREl} {entry : DgrEl} {row : DGR}
    (h : mkDGRentry soup entry = .ok row) : abnIdOf soup = .ok row.abn_id := by
  simp only [mkDGRentry, bind_ok_iff, getEl_ok_iff, getAttr_ok_iff,
    textOf_ok_iff] at h
  obtain ⟨abnVal, habn, ds, hds, d, hd, nin, hnin, t, ht, hrow⟩ := h
  cases hrow
  exact habn

/-- A successful `OtherEntity(...)` construction carries the fragment's
identifier. -/
theorem mkOtherEntityEntry_ok_abn {soup : ABREl} {entry : OtherEntityEl}
    {row : OtherEntity} (h : mkOtherEntityEntry soup entry = .ok row) :
    abnIdOf soup = .ok row.abn_id := by
  simp only [mkOtherEntityEntry, bind_ok_iff, getEl_ok_iff, getAttr_ok_iff,
    textOf_ok_iff] at h
  obtain ⟨abnVal, habn, nin, hnin, t, ht, n, hn, hrow⟩ := h
  cases hrow
  exact habn

/-- Every input of a successful `mapExcept` run yields a successful
application of `f`. -/
theorem mapExcept_ok_of_mem {f : α → Except PyErr β} {l : List α} {ys : List β}
    (h : mapExcept f l = .ok ys) {x : α} (hx : x ∈ l) :
    ∃ y, f x = .ok y := by
  induction l generalizing ys with
  | nil => cases hx
  | cons a t ih =>
    unfold mapExcept at h
    cases hfa : f a with
    | error e => rw [hfa] at h; cases h
    | ok b =>
      rw [hfa] at h
      cases hrest : mapExcept f t with
      | error e => rw [hrest] at h; cases h
      | ok bs =>
        cases hx with
        | head => exact ⟨b, hfa⟩
        | tail _ hx => exact ih hrest hx

/-- A successful Concession Entry construction requires the name text
sub-element to be present. -/
theorem mkDGRentry_ok_nameText {soup : ABREl} {entry : DgrEl} {row : DGR}
    {nin : NonIndividualNameEl}
    (h : mkDGRentry soup entry = .ok row)
    (hnin : entry.nonIndividualName = some nin) :
    ∃ t, nin.nonIndividualNameText = some t := by
  simp only [mkDGRentry, bind_ok_iff, getEl_ok_iff, getAttr_ok_iff,
    textOf_ok_iff] at h
  obtain ⟨abnVal, habn, ds, hds, d, hd, nin', hnin', tv, ⟨t, ht, htt⟩, hrow⟩ := h
  rw [hnin] at hnin'
  cases hnin'
  exact ⟨t, ht⟩

/-- A successful Alternate Name construction requires the name text
sub-element to be present. -/
theorem mkOtherEntityEntry_ok_nameText {soup : ABREl} {entry : OtherEntityEl}
    {row : OtherEntity} {nin : NonIndividualNameEl}
    (h : mkOtherEntityEntry soup entry = .ok row)
    (hnin : entry.nonIndividualName = some nin) :
    ∃ t, nin.nonIndividualNameText = some t := by
  simp only [mkOtherEntityEntry, bind_ok_iff, getEl_ok_iff, getAttr_ok_iff,
    textOf_ok_iff] at h
  obtain ⟨abnVal, habn, nin', hnin', ta, hta, nv, ⟨t, ht, htt⟩, hrow⟩ := h
  rw [hnin] at hnin'
  cases hnin'
  exact ⟨t, ht⟩

/-- Inversion of the `MainEntity` block: either the element is absent and
the key is omitted, or the try/except construction succeeded with one row. -/
theorem mainEntityField_ok {soup : ABREl} {o : Option (List MainEntity)}
    (h : mainEntityField soup = .ok o) :
    (o = none ∧ soup.mainEntity = none) ∨
    ∃ row, o = some [row] ∧
      exceptValueError (mkMainEntity soup false) (mkMainEntity soup true) =
        .ok row := by
  unfold mainEntityField at h
  split at h
  · cases h
    exact Or.inl ⟨rfl, by assumption⟩
  · split at h
    · cases h
    · cases h
      exact Or.inr ⟨_, rfl, by assumption⟩

/-- Inversion of the `LegalEntity` block. -/
theorem legalEntityField_ok {soup : ABREl} {o : Option (List LegalEntity)}
    (h : legalEntityField soup = .ok o) :
    (o = none ∧ soup.legalEntity = none) ∨
    ∃ row, o = some [row] ∧
      exceptValueError (mkLegalEntity soup false) (mkLegalEntity soup true) =
        .ok row := by
  unfold legalEntityField at h
  split at h
  · cases h
    exact Or.inl ⟨rfl, by assumption⟩
  · split at h
    · cases h
    · cases h
      exact Or.inr ⟨_, rfl, by assumption⟩

/-- Inversion of the `ASICNumber` block. -/
theorem asicNumberField_ok {soup : ABREl} {o : Option (List ASICNumber)}
    (h : asicNumberField soup = .ok o) :
    (o = none ∧ soup.asicNumber = none) ∨
    ∃ row, o = some [row] ∧ mkASICNumber soup = .ok row := by
  unfold asicNumberField at h
  split at h
  · cases h
    exact Or.inl ⟨rfl, by assumption⟩
  · split at h
    · cases h
    · cases h
      exact Or.inr ⟨_, rfl, by assumption⟩

/-- Inversion of the `GST` block. -/
theorem gstField_ok {soup : ABREl} {o : Option (List GST)}
    (h : gstField soup = .ok o) :
    (o = none ∧ soup.gst = none) ∨
    ∃ row, o = some [row] ∧ mkGST soup = .ok row := by
  unfold gstField at h
  split at h
  · cases h
    exact Or.inl ⟨rfl, by assumption⟩
  · split at h
    · cases h
    · cases h
      exact Or.inr ⟨_, rfl, by assumption⟩

/-- Inversion of the `DGR` block. -/
theorem dgrField_ok {soup : ABREl} {o : Option (List DGR)}
    (h : dgrField soup = .ok o) :
    (o = none ∧ soup.dgr = []) ∨
    ∃ rows, o = some rows ∧ mapExcept (mkDGRentry soup) soup.dgr = .ok rows := by
  unfold dgrField at h
  split at h
  · cases h
    exact Or.inl ⟨rfl, by assumption⟩
  · split at h
    · cases h
    · cases h
      exact Or.inr ⟨_, rfl, by assumption⟩

/-- Inversion of the `OtherEntity` block. -/
theorem otherEntityField_ok {soup : ABREl} {o : Option (List OtherEntity)}
    (h : otherEntityField soup = .ok o) :
    (o = none ∧ soup.otherEntity = []) ∨
    ∃ rows, o = some rows ∧
      mapExcept (mkOtherEntityEntry soup) soup.otherEntity = .ok rows := by
  unfold otherEntityField at h
  split at h
  · cases h
    exact Or.inl ⟨rfl, by assumption⟩
  · split at h
    · cases h
    · cases h
      exact Or.inr ⟨_, rfl, by assumption⟩

/-- Inversion of a successful `generate_bulk_insert`: the `'abn'` key holds
exactly one row whose identifier the fragment's `ABN` text parsed to, and
each optional key is exactly what its block computed. -/
theorem generate_ok_parts {soup : ABREl} {r : ReturnDict}
    (h : generate_bulk_insert soup = .ok r) :
    ∃ a, r.abn = [a] ∧ abnIdOf soup = .ok a.abn ∧
      mainEntityField soup = .ok r.main_entity ∧
      legalEntityField soup = .ok r.legal_entity ∧
      asicNumberField soup = .ok r.asic_number ∧
      gstField soup = .ok r.gst ∧
      dgrField soup = .ok r.dgr ∧
      otherEntityField soup = .ok r.other_entity := by
  simp only [generate_bulk_insert, bind_ok_iff, getEl_ok_iff, getAttr_ok_iff,
    textOf_ok_iff] at h
  obtain ⟨abnVal, habn, abnEl, habnEl, st, hst, dts, hdts, dt, hdt,
    etEl, hetEl, indv, ⟨ind, hind, hindtext⟩, ettv, ⟨ett, hett, hetttext⟩,
    me, hme, le, hle, asic, hasic, g, hg, d, hd, oe, hoe, hrow⟩ := h
  cases hrow
  exact ⟨_, rfl, habn, hme, hle, hasic, hg, hd, hoe⟩

/-- Two evaluations of `int(soup.ABR.ABN.text)` agree. -/
theorem abnIdOf_unique {soup : ABREl} {x y : Int}
    (hx : abnIdOf soup = .ok x) (hy : abnIdOf soup = .ok y) : x = y := by
  rw [hx] at hy
  cases hy
  rfl

/-- C10: for every fragment on which normalization succeeds, the returned
mapping contains the key `'abn'` with exactly one Business Record, and every
dependent entity in every other list carries an `abn_id` equal to that
record's identifier. -/
theorem c10_fragment_batch_referentially_consistent {soup : ABREl}
    {r : ReturnDict} (h : generate_bulk_insert soup = .ok r) :
    ∃ a, r.abn = [a] ∧
      (∀ rows, r.main_entity = some rows → ∀ row ∈ rows, row.abn_id = a.abn) ∧
      (∀ rows, r.legal_entity = some rows → ∀ row ∈ rows, row.abn_id = a.abn) ∧
      (∀ rows, r.asic_number = some rows → ∀ row ∈ rows, row.abn_id = a.abn) ∧
      (∀ rows, r.gst = some rows → ∀ row ∈ rows, row.abn_id = a.abn) ∧
      (∀ rows, r.dgr = some rows → ∀ row ∈ rows, row.abn_id = a.abn) ∧
      (∀ rows, r.other_entity = some rows → ∀ row ∈ rows, row.abn_id = a.abn) := by
  obtain ⟨a, habn, haid, hme, hle, hasic, hg, hd, hoe⟩ := generate_ok_parts h
  refine ⟨a, habn, ?_, ?_, ?_, ?_, ?_, ?_⟩
  · intro rows hrows row hrow
    rcases mainEntityField_ok hme with ⟨hnone, _⟩ | ⟨row', hsome, hblock⟩
    · rw [hrows] at hnone; cases hnone
    · rw [hrows] at hsome
      cases hsome
      cases List.mem_singleton.mp hrow
      rcases exceptValueError_ok hblock with hmk | ⟨_, hmk⟩ <;>
        · obtain ⟨_, _, _, _, _, hid, _⟩ := mkMainEntity_ok_inv hmk
          exact abnIdOf_unique hid haid
  · intro rows hrows row hrow
    rcases legalEntityField_ok hle with ⟨hnone, _⟩ | ⟨row', hsome, hblock⟩
    · rw [hrows] at hnone; cases hnone
    · rw [hrows] at hsome
      cases hsome
      cases List.mem_singleton.mp hrow
      rcases exceptValueError_ok hblock with hmk | ⟨_, hmk⟩ <;>
        · obtain ⟨_, _, _, _, _, hid, _⟩ := mkLegalEntity_ok_inv hmk
          exact abnIdOf_unique hid haid
  · intro rows hrows row hrow
    rcases asicNumberField_ok hasic with ⟨hnone, _⟩ | ⟨row', hsome, hmk⟩
    · rw [hrows] at hnone; cases hnone
    · rw [hrows] at hsome
      cases hsome
      cases List.mem_singleton.mp hrow
      exact abnIdOf_unique (mkASICNumber_ok_abn hmk) haid
  · intro rows hrows row hrow
    rcases gstField_ok hg with ⟨hnone, _⟩ | ⟨row', hsome, hmk⟩
    · rw [hrows] at hnone; cases hnone
    · rw [hrows] at hsome
      cases hsome
      cases List.mem_singleton.mp hrow
      exact abnIdOf_unique (mkGST_ok_abn hmk) haid
  · intro rows hrows row hrow
    rcases dgrField_ok hd with ⟨hnone, _⟩ | ⟨rows', hsome, hmap⟩
    · rw [hrows] at hnone; cases hnone
    · rw [hrows] at hsome
      cases hsome
      obtain ⟨entry, _, hmk⟩ := mapExcept_ok_mem hmap hrow
      exact abnIdOf_unique (mkDGRentry_ok_abn hmk) haid
  · intro rows hrows row hrow
    rcases otherEntityField_ok hoe with ⟨hnone, _⟩ | ⟨rows', hsome, hmap⟩
    · rw [hrows] at hnone; cases hnone
    · rw [hrows] at hsome
      cases hsome
      obtain ⟨entry, _, hmk⟩ := mapExcept_ok_mem hmap hrow
      exact abnIdOf_unique (mkOtherEntityEntry_ok_abn hmk) haid

/-- A concrete fragment with Primary Registration, External Registration
Number, Tax Status and one Concession Entry blocks present. -/
def fragFull : ABREl :=
  { abn := some ⟨"51824753556", some "ACT", some "20000101"⟩
    entityType := some ⟨some ⟨"PUB"⟩, some ⟨"Australian Public Company"⟩⟩
    mainEntity := some
      ⟨some ⟨some "MN", "ACME PTY LTD", none⟩,
       some ⟨some ⟨some ⟨"NSW"⟩, some ⟨"2000"⟩⟩⟩⟩
    legalEntity := none
    asicNumber := some ⟨"123456789", some "APTY"⟩
    gst := some ⟨some "ACT", some "20000101"⟩
    dgr := [⟨some "20000101", some ⟨none, "", some ⟨"ACME FUND"⟩⟩⟩]
    otherEntity := [] }

/-- The normalized output of `fragFull`. -/
def rdFull : ReturnDict :=
  { abn := [⟨51824753556, "ACT", ⟨2000, 1, 1⟩, "PUB", "Australian Public Company"⟩]
    main_entity := some [⟨51824753556, "MN", "ACME PTY LTD", "NSW", 2000⟩]
    legal_entity := none
    asic_number := some [⟨51824753556, "123456789", "APTY"⟩]
    gst := some [⟨51824753556, "ACT", ⟨2000, 1, 1⟩⟩]
    dgr := some [⟨51824753556, ⟨2000, 1, 1⟩, "ACME FUND"⟩]
    other_entity := none }

/-- The Business Record row produced from `fragFull`. -/
def abnRowFull : ABN :=
  ⟨51824753556, "ACT", ⟨2000, 1, 1⟩, "PUB", "Australian Public Company"⟩

/-- The Primary Registration row produced from `fragFull`. -/
def rowMainFull : MainEntity := ⟨51824753556, "MN", "ACME PTY LTD", "NSW", 2000⟩

/-- The External Registration Number row produced from `fragFull`. -/
def rowAsicFull : ASICNumber := ⟨51824753556, "123456789", "APTY"⟩

/-- The Tax Status row produced from `fragFull`. -/
def rowGstFull : GST := ⟨51824753556, "ACT", ⟨2000, 1, 1⟩⟩

/-- The Concession Entry row produced from `fragFull`. -/
def rowDgrFull : DGR := ⟨51824753556, ⟨2000, 1, 1⟩, "ACME FUND"⟩

/-- Witness for C10 at the concrete fragment `fragFull`. -/
theorem c10_fragment_batch_referentially_consistent_witness :
    generate_bulk_insert fragFull = .ok rdFull ∧
    rdFull.abn = [abnRowFull] ∧
    rowMainFull.abn_id = abnRowFull.abn ∧
    rowAsicFull.abn_id = abnRowFull.abn ∧
    rowGstFull.abn_id = abnRowFull.abn ∧
    rowDgrFull.abn_id = abnRowFull.abn := by
  have h := c10_fragment_batch_referentially_consistent
    (rfl : generate_bulk_insert fragFull = .ok rdFull)
  obtain ⟨a, ha, h1, _, h3, h4, h5, _⟩ := h
  have h0 : ([abnRowFull] : List ABN) = [a] := ha
  injection h0 with h0' _
  subst h0'
  refine ⟨rfl, ha, ?_, ?_, ?_, ?_⟩
  · exact h1 [rowMainFull] rfl rowMainFull (List.mem_singleton.mpr rfl)
  · exact h3 [rowAsicFull] rfl rowAsicFull (List.mem_singleton.mpr rfl)
  · exact h4 [rowGstFull] rfl rowGstFull (List.mem_singleton.mpr rfl)
  · exact h5 [rowDgrFull] rfl rowDgrFull (List.mem_singleton.mpr rfl)

/-- C7: for every fragment containing an Individual Registration block, the
composed name equals `given + " " + family` with `given` defaulting to the
empty string when the given-name sub-element is absent, and in that absent
case the result is exactly `" " + familyName`, leading space preserved. -/
theorem c7_individual_name_composition {soup : ABREl} {r : ReturnDict}
    {le : LegalEntityEl} {iname : IndividualNameEl} {fam : TextEl}
    {rows : List LegalEntity} {row : LegalEntity}
    (h : generate_bulk_insert soup = .ok r)
    (hle : soup.legalEntity = some le)
    (hiname : le.individualName = some iname)
    (hfam : iname.familyName = some fam)
    (hrows : r.legal_entity = some rows) (hrow : row ∈ rows) :
    row.legal_entity_name = element_handle iname.givenName ++ " " ++ fam.text ∧
    (iname.givenName = none → row.legal_entity_name = " " ++ fam.text) := by
  obtain ⟨a, habn, haid, hme, hlef, hasic, hg, hd, hoe⟩ := generate_ok_parts h
  rcases legalEntityField_ok hlef with ⟨hnone, _⟩ | ⟨row', hsome, hblock⟩
  · rw [hrows] at hnone; cases hnone
  · rw [hrows] at hsome
    cases hsome
    cases List.mem_singleton.mp hrow
    have hname :
        row.legal_entity_name = element_handle iname.givenName ++ " " ++ fam.text := by
      rcases exceptValueError_ok hblock with hmk | ⟨_, hmk⟩ <;>
        · obtain ⟨le', iname', ba, ad, st, _, hle', hiname', _,
            ⟨fam', hfam', hnm⟩, _⟩ := mkLegalEntity_ok_inv hmk
          rw [hle] at hle'; cases hle'
          rw [hiname] at hiname'; cases hiname'
          rw [hfam] at hfam'; cases hfam'
          exact hnm
    refine ⟨hname, fun hng => ?_⟩
    rw [hname, hng]
    rfl

/-- The `IndividualName` element of the C7 witness fragment: given name
absent, family name `SMITH`. -/
def inameNoGiven : IndividualNameEl := ⟨some "IND", none, some ⟨"SMITH"⟩⟩

/-- The `LegalEntity` element of the C7 witness fragment. -/
def leNoGiven : LegalEntityEl :=
  ⟨some inameNoGiven, some ⟨some ⟨some ⟨"VIC"⟩, some ⟨"3000"⟩⟩⟩⟩

/-- A concrete fragment with an Individual Registration block whose
given-name sub-element is absent. -/
def fragLegal : ABREl :=
  { abn := some ⟨"51824753556", some "ACT", some "20000101"⟩
    entityType := some ⟨some ⟨"IND"⟩, some ⟨"Individual"⟩⟩
    mainEntity := none
    legalEntity := some leNoGiven
    asicNumber := none
    gst := none
    dgr := []
    otherEntity := [] }

/-- The normalized output of `fragLegal`: the composed name is `" SMITH"`,
leading space preserved. -/
def rdLegal : ReturnDict :=
  { abn := [⟨51824753556, "ACT", ⟨2000, 1, 1⟩, "IND", "Individual"⟩]
    main_entity := none
    legal_entity := some [⟨51824753556, "IND", " SMITH", "VIC", 3000⟩]
    asic_number := none
    gst := none
    dgr := none
    other_entity := none }

/-- The Individual Registration row produced from `fragLegal`. -/
def rowLegalNoGiven : LegalEntity := ⟨51824753556, "IND", " SMITH", "VIC", 3000⟩

/-- Witness for C7 at the concrete fragment `fragLegal`. -/
theorem c7_individual_name_composition_witness :
    generate_bulk_insert fragLegal = .ok rdLegal ∧
    rowLegalNoGiven.legal_entity_name =
      element_handle inameNoGiven.givenName ++ " " ++ TextEl.text ⟨"SMITH"⟩ ∧
    rowLegalNoGiven.legal_entity_name = " " ++ TextEl.text ⟨"SMITH"⟩ :=
  ⟨rfl,
    (c7_individual_name_composition
      (rfl : generate_bulk_insert fragLegal = .ok rdLegal)
      (rfl : fragLegal.legalEntity = some leNoGiven)
      (rfl : leNoGiven.individualName = some inameNoGiven)
      (rfl : inameNoGiven.familyName = some ⟨"SMITH"⟩)
      (rfl : rdLegal.legal_entity = some [rowLegalNoGiven])
      (List.mem_singleton.mpr rfl)).1,
    (c7_individual_name_composition
      (rfl : generate_bulk_insert fragLegal = .ok rdLegal)
      (rfl : fragLegal.legalEntity = some leNoGiven)
      (rfl : leNoGiven.individualName = some inameNoGiven)
      (rfl : inameNoGiven.familyName = some ⟨"SMITH"⟩)
      (rfl : rdLegal.legal_entity = some [rowLegalNoGiven])
      (List.mem_singleton.mpr rfl)).2 rfl⟩

/-- Whether an `Except` computation succeeded. -/
def isOkE : Except PyErr α → Bool
  | .ok _ => true
  | .error _ => false

/-- Bind of a success reduces. -/
theorem exbind_ok (a : α) (f : α → Except PyErr β) :
    ((.ok a : Except PyErr α) >>= f) = f a := rfl

/-- Navigation of a present element reduces. -/
theorem getEl_some (x : α) : getEl (some x) = .ok x := rfl

/-- Access of a present attribute reduces. -/
theorem getAttr_some (v : String) : getAttr (some v) = .ok v := rfl

/-- Text of a present element reduces. -/
theorem textOf_some (t : TextEl) : textOf (some t) = .ok t.text := rfl

/-- Forward evaluation of the `except ValueError` branch of the
`MainEntity` construction: with every navigated element present, it
succeeds with postcode `0`. -/
theorem mkMainEntity_true_eval {soup : ABREl} {me : MainEntityEl}
    {nin : NonIndividualNameEl} {ba : BusinessAddressEl}
    {ad : AddressDetailsEl} {st : TextEl} {v : Int} {mt : String}
    (habn : abnIdOf soup = .ok v) (hme : soup.mainEntity = some me)
    (hnin : me.nonIndividualName = some nin) (hmt : nin.typeAttr = some mt)
    (hba : me.businessAddress = some ba) (had : ba.addressDetails = some ad)
    (hst : ad.state = some st) :
    mkMainEntity soup true = .ok ⟨v, mt, nin.text, st.text, 0⟩ := by
  simp only [mkMainEntity, habn, exbind_ok, hme, getEl_some, hnin, hmt,
    getAttr_some, hba, had, hst, textOf_some, if_true, pyInt_zero]

/-- Forward evaluation of the `try` branch of the `MainEntity`
construction: with every navigated element present it reduces to the
postcode parse. -/
theorem mkMainEntity_false_eval {soup : ABREl} {me : MainEntityEl}
    {nin : NonIndividualNameEl} {ba : BusinessAddressEl}
    {ad : AddressDetailsEl} {st pc : TextEl} {v : Int} {mt : String}
    (habn : abnIdOf soup = .ok v) (hme : soup.mainEntity = some me)
    (hnin : me.nonIndividualName = some nin) (hmt : nin.typeAttr = some mt)
    (hba : me.businessAddress = some ba) (had : ba.addressDetails = some ad)
    (hst : ad.state = some st) (hpc : ad.postcode = some pc) :
    mkMainEntity soup false =
      (match pyInt (pyOr pc.text "0") with
       | .ok y => .ok ⟨v, mt, nin.text, st.text, y⟩
       | .error e => .error e) := by
  simp only [mkMainEntity, habn, exbind_ok, hme, getEl_some, hnin, hmt,
    getAttr_some, hba, had, hst, hpc, textOf_some, Bool.false_eq_true, if_false]
  cases hp : pyInt (pyOr pc.text "0") <;> simp [Bind.bind, Except.bind, hp]

/-- A successful `MainEntity` try/except block under a blank or non-numeric
postcode yields postcode `0`. -/
theorem mainBlock_ok_postcode_zero {soup : ABREl} {me : MainEntityEl}
    {ba : BusinessAddressEl} {ad : AddressDetailsEl} {pc : TextEl}
    {row : MainEntity}
    (hme : soup.mainEntity = some me) (hba : me.businessAddress = some ba)
    (had : ba.addressDetails = some ad) (hpc : ad.postcode = some pc)
    (hbad : isOkE (pyInt pc.text) = false)
    (hblock : exceptValueError (mkMainEntity soup false) (mkMainEntity soup true)
      = .ok row) :
    row.address_postcode = 0 := by
  rcases exceptValueError_ok hblock with hmk | ⟨_, hmk⟩
  · obtain ⟨me', nin, ba', ad', st, habn, hme', hnin, hmt, hnm, hba', had',
      hst, hstx, hpcspec⟩ := mkMainEntity_ok_inv hmk
    rw [hme] at hme'; cases hme'
    rw [hba] at hba'; cases hba'
    rw [had] at had'; cases had'
    simp only [Bool.false_eq_true, if_false] at hpcspec
    obtain ⟨pc', hpc', hpyv⟩ := hpcspec
    rw [hpc] at hpc'; cases hpc'
    by_cases hempty : pc.text = ""
    · rw [hempty] at hpyv
      simp [pyOr, pyInt_zero] at hpyv
      omega
    · rw [show pyOr pc.text "0" = pc.text from if_neg hempty] at hpyv
      rw [hpyv] at hbad
      cases hbad
  · obtain ⟨me', nin, ba', ad', st, habn, hme', hnin, hmt, hnm, hba', had',
      hst, hstx, hpcspec⟩ := mkMainEntity_ok_inv hmk
    simpa using hpcspec

/-- Under a blank or non-numeric postcode the `MainEntity` try/except block
succeeds exactly when its `except ValueError` branch does: the bad postcode
is never the cause of a failure. -/
theorem mainBlock_isOk_eq {soup : ABREl} {me : MainEntityEl}
    {ba : BusinessAddressEl} {ad : AddressDetailsEl} {pc : TextEl}
    (hme : soup.mainEntity = some me) (hba : me.businessAddress = some ba)
    (had : ba.addressDetails = some ad) (hpc : ad.postcode = some pc) :
    isOkE (exceptValueError (mkMainEntity soup false) (mkMainEntity soup true))
      = isOkE (mkMainEntity soup true) := by
  cases hT : mkMainEntity soup true with
  | ok rowT =>
    obtain ⟨me', nin, ba', ad', st, habn, hme', hnin, hmt, hnm, hba', had',
      hst, hstx, _⟩ := mkMainEntity_ok_inv hT
    rw [hme] at hme'; cases hme'
    rw [hba] at hba'; cases hba'
    rw [had] at had'; cases had'
    have hF := mkMainEntity_false_eval habn hme hnin hmt hba had hst hpc
    unfold exceptValueError
    rw [hF]
    cases hp : pyInt (pyOr pc.text "0") with
    | ok y => simp [isOkE]
    | error e =>
      cases pyInt_error_eq hp
      simp [isOkE, hT]
  | error eT =>
    cases hFc : mkMainEntity soup false with
    | ok rowF =>
      obtain ⟨me', nin, ba', ad', st, habn, hme', hnin, hmt, hnm, hba', had',
        hst, hstx, _⟩ := mkMainEntity_ok_inv hFc
      have := mkMainEntity_true_eval habn hme' hnin hmt hba' had' hst
      rw [hT] at this
      cases this
    | error eF =>
      unfold exceptValueError
      cases eF <;> simp [isOkE]

/-- Forward evaluation of the `except ValueError` branch of the
`LegalEntity` construction. -/
theorem mkLegalEntity_true_eval {soup : ABREl} {le : LegalEntityEl}
    {iname : IndividualNameEl} {fam : TextEl} {ba : BusinessAddressEl}
    {ad : AddressDetailsEl} {st : TextEl} {v : Int} {lt : String}
    (habn : abnIdOf soup = .ok v) (hle : soup.legalEntity = some le)
    (hiname : le.individualName = some iname) (hlt : iname.typeAttr = some lt)
    (hfam : iname.familyName = some fam)
    (hba : le.businessAddress = some ba) (had : ba.addressDetails = some ad)
    (hst : ad.state = some st) :
    mkLegalEntity soup true =
      .ok ⟨v, lt, element_handle iname.givenName ++ " " ++ fam.text,
        st.text, 0⟩ := by
  simp only [mkLegalEntity, habn, exbind_ok, hle, getEl_some, hiname, hlt,
    getAttr_some, hfam, hba, had, hst, textOf_some, if_true, pyInt_zero]

/-- Forward evaluation of the `try` branch of the `LegalEntity`
construction. -/
theorem mkLegalEntity_false_eval {soup : ABREl} {le : LegalEntityEl}
    {iname : IndividualNameEl} {fam : TextEl} {ba : BusinessAddressEl}
    {ad : AddressDetailsEl} {st pc : TextEl} {v : Int} {lt : String}
    (habn : abnIdOf soup = .ok v) (hle : soup.legalEntity = some le)
    (hiname : le.individualName = some iname) (hlt : iname.typeAttr = some lt)
    (hfam : iname.familyName = some fam)
    (hba : le.businessAddress = some ba) (had : ba.addressDetails = some ad)
    (hst : ad.state = some st) (hpc : ad.postcode = some pc) :
    mkLegalEntity soup false =
      (match pyInt (pyOr pc.text "0") with
       | .ok y =>
         .ok ⟨v, lt, element_handle iname.givenName ++ " " ++ fam.text,
           st.text, y⟩
       | .error e => .error e) := by
  simp only [mkLegalEntity, habn, exbind_ok, hle, getEl_some, hiname, hlt,
    getAttr_some, hfam, hba, had, hst, hpc, textOf_some, Bool.false_eq_true,
    if_false]
  cases hp : pyInt (pyOr pc.text "0") <;> simp [Bind.bind, Except.bind, hp]

/-- A successful `LegalEntity` try/except block under a blank or
non-numeric postcode yields postcode `0`. -/
theorem legalBlock_ok_postcode_zero {soup : ABREl} {le : LegalEntityEl}
    {ba : BusinessAddressEl} {ad : AddressDetailsEl} {pc : TextEl}
    {row : LegalEntity}
    (hle : soup.legalEntity = some le) (hba : le.businessAddress = some ba)
    (had : ba.addressDetails = some ad) (hpc : ad.postcode = some pc)
    (hbad : isOkE (pyInt pc.text) = false)
    (hblock : exceptValueError (mkLegalEntity soup false) (mkLegalEntity soup true)
      = .ok row) :
    row.address_postcode = 0 := by
  rcases exceptValueError_ok hblock with hmk | ⟨_, hmk⟩
  · obtain ⟨le', iname, ba', ad', st, habn, hle', hiname, hlt, hnm, hba', had',
      hst, hstx, hpcspec⟩ := mkLegalEntity_ok_inv hmk
    rw [hle] at hle'; cases hle'
    rw [hba] at hba'; cases hba'
    rw [had] at had'; cases had'
    simp only [Bool.false_eq_true, if_false] at hpcspec
    obtain ⟨pc', hpc', hpyv⟩ := hpcspec
    rw [hpc] at hpc'; cases hpc'
    by_cases hempty : pc.text = ""
    · rw [hempty] at hpyv
      simp [pyOr, pyInt_zero] at hpyv
      omega
    · rw [show pyOr pc.text "0" = pc.text from if_neg hempty] at hpyv
      rw [hpyv] at hbad
      cases hbad
  · obtain ⟨le', iname, ba', ad', st, habn, hle', hiname, hlt, hnm, hba', had',
      hst, hstx, hpcspec⟩ := mkLegalEntity_ok_inv hmk
    simpa using hpcspec

/-- Under a blank or non-numeric postcode the `LegalEntity` try/except
block succeeds exactly when its `except ValueError` branch does. -/
theorem legalBlock_isOk_eq {soup : ABREl} {le : LegalEntityEl}
    {ba : BusinessAddressEl} {ad : AddressDetailsEl} {pc : TextEl}
    (hle : soup.legalEntity = some le) (hba : le.businessAddress = some ba)
    (had : ba.addressDetails = some ad) (hpc : ad.postcode = some pc) :
    isOkE (exceptValueError (mkLegalEntity soup false) (mkLegalEntity soup true))
      = isOkE (mkLegalEntity soup true) := by
  cases hT : mkLegalEntity soup true with
  | ok rowT =>
    obtain ⟨le', iname, ba', ad', st, habn, hle', hiname, hlt,
      ⟨fam, hfam, hnm⟩, hba', had', hst, hstx, _⟩ := mkLegalEntity_ok_inv hT
    rw [hle] at hle'; cases hle'
    rw [hba] at hba'; cases hba'
    rw [had] at had'; cases had'
    have hF := mkLegalEntity_false_eval habn hle hiname hlt hfam hba had hst hpc
    unfold exceptValueError
    rw [hF]
    cases hp : pyInt (pyOr pc.text "0") with
    | ok y => simp [isOkE]
    | error e =>
      cases pyInt_error_eq hp
      simp [isOkE]
  | error eT =>
    cases hFc : mkLegalEntity soup false with
    | ok rowF =>
      obtain ⟨le', iname, ba', ad', st, habn, hle', hiname, hlt,
        ⟨fam, hfam, hnm⟩, hba', had', hst, hstx, _⟩ := mkLegalEntity_ok_inv hFc
      have := mkLegalEntity_true_eval habn hle' hiname hlt hfam hba' had' hst
      rw [hT] at this
      cases this
    | error eF =>
      unfold exceptValueError
      cases eF <;> simp [isOkE]

/-- C5: for every well-formed fragment with a Primary Registration or
Individual Registration block whose postcode sub-field is blank or
non-numeric, the block's try/except construction succeeds whenever its
retry branch does (the bad postcode never fails the fragment), and the
entity a successful normalization produces has postcode `0`. -/
theorem c5_bad_postcode_defaults_to_zero :
    (∀ (soup : ABREl) (me : MainEntityEl) (ba : BusinessAddressEl)
      (ad : AddressDetailsEl) (pc : TextEl),
      soup.mainEntity = some me → me.businessAddress = some ba →
      ba.addressDetails = some ad → ad.postcode = some pc →
      isOkE (pyInt pc.text) = false →
      isOkE (exceptValueError (mkMainEntity soup false) (mkMainEntity soup true))
          = isOkE (mkMainEntity soup true) ∧
      (∀ r rows row, generate_bulk_insert soup = .ok r →
        r.main_entity = some rows → row ∈ rows → row.address_postcode = 0)) ∧
    (∀ (soup : ABREl) (le : LegalEntityEl) (ba : BusinessAddressEl)
      (ad : AddressDetailsEl) (pc : TextEl),
      soup.legalEntity = some le → le.businessAddress = some ba →
      ba.addressDetails = some ad → ad.postcode = some pc →
      isOkE (pyInt pc.text) = false →
      isOkE (exceptValueError (mkLegalEntity soup false) (mkLegalEntity soup true))
          = isOkE (mkLegalEntity soup true) ∧
      (∀ r rows row, generate_bulk_insert soup = .ok r →
        r.legal_entity = some rows → row ∈ rows → row.address_postcode = 0)) := by
  constructor
  · intro soup me ba ad pc hme hba had hpc hbad
    refine ⟨mainBlock_isOk_eq hme hba had hpc, ?_⟩
    intro r rows row hgen hrows hrow
    obtain ⟨a, habn, haid, hmef, _⟩ := generate_ok_parts hgen
    rcases mainEntityField_ok hmef with ⟨hnone, _⟩ | ⟨row', hsome, hblock⟩
    · rw [hrows] at hnone; cases hnone
    · rw [hrows] at hsome
      cases hsome
      cases List.mem_singleton.mp hrow
      exact mainBlock_ok_postcode_zero hme hba had hpc hbad hblock
  · intro soup le ba ad pc hle hba had hpc hbad
    refine ⟨legalBlock_isOk_eq hle hba had hpc, ?_⟩
    intro r rows row hgen hrows hrow
    obtain ⟨a, habn, haid, hmef, hlef, _⟩ := generate_ok_parts hgen
    rcases legalEntityField_ok hlef with ⟨hnone, _⟩ | ⟨row', hsome, hblock⟩
    · rw [hrows] at hnone; cases hnone
    · rw [hrows] at hsome
      cases hsome
      cases List.mem_singleton.mp hrow
      exact legalBlock_ok_postcode_zero hle hba had hpc hbad hblock

/-- The non-numeric postcode element of the C5 witness fragment. -/
def pcBad : TextEl := ⟨"N/A"⟩

/-- Address details with a non-numeric postcode. -/
def adBadPc : AddressDetailsEl := ⟨some ⟨"NSW"⟩, some pcBad⟩

/-- Business address wrapping `adBadPc`. -/
def baBadPc : BusinessAddressEl := ⟨some adBadPc⟩

/-- A Primary Registration block with a non-numeric postcode. -/
def meBadPc : MainEntityEl := ⟨some ⟨some "MN", "ACME", none⟩, some baBadPc⟩

/-- An Individual Registration block with a non-numeric postcode. -/
def leBadPc : LegalEntityEl :=
  ⟨some ⟨some "IND", some ⟨"JOHN"⟩, some ⟨"SMITH"⟩⟩, some baBadPc⟩

/-- A concrete fragment whose two registration blocks both carry the
non-numeric postcode `N/A`. -/
def fragBadPc : ABREl :=
  { abn := some ⟨"51824753556", some "ACT", some "20000101"⟩
    entityType := some ⟨some ⟨"PRV"⟩, some ⟨"Private Company"⟩⟩
    mainEntity := some meBadPc
    legalEntity := some leBadPc
    asicNumber := none
    gst := none
    dgr := []
    otherEntity := [] }

/-- The Primary Registration row produced from `fragBadPc`. -/
def rowMainBadPc : MainEntity := ⟨51824753556, "MN", "ACME", "NSW", 0⟩

/-- The Individual Registration row produced from `fragBadPc`. -/
def rowLegalBadPc : LegalEntity := ⟨51824753556, "IND", "JOHN SMITH", "NSW", 0⟩

/-- The normalized output of `fragBadPc`: both postcodes default to `0`. -/
def rdBadPc : ReturnDict :=
  { abn := [⟨51824753556, "ACT", ⟨2000, 1, 1⟩, "PRV", "Private Company"⟩]
    main_entity := some [rowMainBadPc]
    legal_entity := some [rowLegalBadPc]
    asic_number := none
    gst := none
    dgr := none
    other_entity := none }

/-- Witness for C5 at the concrete fragment `fragBadPc`. -/
theorem c5_bad_postcode_defaults_to_zero_witness :
    isOkE (pyInt pcBad.text) = false ∧
    generate_bulk_insert fragBadPc = .ok rdBadPc ∧
    rowMainBadPc.address_postcode = 0 ∧
    rowLegalBadPc.address_postcode = 0 :=
  ⟨rfl, rfl,
    (c5_bad_postcode_defaults_to_zero.1 fragBadPc meBadPc baBadPc adBadPc pcBad
      rfl rfl rfl rfl rfl).2 rdBadPc [rowMainBadPc] rowMainBadPc rfl rfl
      (List.mem_singleton.mpr rfl),
    (c5_bad_postcode_defaults_to_zero.2 fragBadPc leBadPc baBadPc adBadPc pcBad
      rfl rfl rfl rfl rfl).2 rdBadPc [rowLegalBadPc] rowLegalBadPc rfl rfl
      (List.mem_singleton.mpr rfl)⟩

/-- Address details whose `State` sub-element is absent. -/
def adNoState : AddressDetailsEl := ⟨none, some ⟨"2000"⟩⟩

/-- Business address wrapping `adNoState`. -/
def baNoState : BusinessAddressEl := ⟨some adNoState⟩

/-- A Primary Registration block whose `State` text sub-field is absent. -/
def meNoState : MainEntityEl := ⟨some ⟨some "MN", "ACME", none⟩, some baNoState⟩

/-- A concrete fragment with a present Primary Registration block whose
`State` text sub-field is absent. -/
def fragNoState : ABREl :=
  { abn := some ⟨"51824753556", some "ACT", some "20000101"⟩
    entityType := some ⟨some ⟨"PRV"⟩, some ⟨"Private Company"⟩⟩
    mainEntity := some meNoState
    legalEntity := none
    asicNumber := none
    gst := none
    dgr := []
    otherEntity := [] }

/-- C4 counterexample: a fragment with a present optional block whose
`State` text sub-field is absent is not normalized to an empty-string
field — normalization raises (the AttributeError of `None.text`), so the
claimed across-all-sub-fields empty-string defaulting is false. -/
theorem c4_counterexample_state_absence_fails :
    generate_bulk_insert fragNoState = .error .noneError := rfl

/-- The `IndividualName` element of the no-family-name fragment. -/
def inameNoFam : IndividualNameEl := ⟨some "IND", some ⟨"JOHN"⟩, none⟩

/-- A Legal-Entity block whose `FamilyName` sub-element is absent. -/
def leNoFam : LegalEntityEl :=
  ⟨some inameNoFam, some ⟨some ⟨some ⟨"VIC"⟩, some ⟨"3000"⟩⟩⟩⟩

/-- A concrete fragment with an Individual Registration block whose
`FamilyName` text sub-field is absent. -/
def fragNoFam : ABREl :=
  { abn := some ⟨"51824753556", some "ACT", some "20000101"⟩
    entityType := some ⟨some ⟨"IND"⟩, some ⟨"Individual"⟩⟩
    mainEntity := none
    legalEntity := some leNoFam
    asicNumber := none
    gst := none
    dgr := []
    otherEntity := [] }

/-- A Legal-Entity block whose address `State` sub-element is absent. -/
def leNoState : LegalEntityEl :=
  ⟨some ⟨some "IND", some ⟨"JOHN"⟩, some ⟨"SMITH"⟩⟩, some baNoState⟩

/-- A concrete fragment with an Individual Registration block whose
`State` text sub-field is absent. -/
def fragLegalNoState : ABREl :=
  { abn := some ⟨"51824753556", some "ACT", some "20000101"⟩
    entityType := some ⟨some ⟨"IND"⟩, some ⟨"Individual"⟩⟩
    mainEntity := none
    legalEntity := some leNoState
    asicNumber := none
    gst := none
    dgr := []
    otherEntity := [] }

/-- A `NonIndividualName` element whose `NonIndividualNameText` child is
absent. -/
def ninNoText : NonIndividualNameEl := ⟨some "TRD", "", none⟩

/-- A Concession Entry element whose name text sub-field is absent. -/
def dgrEntryNoName : DgrEl := ⟨some "20000101", some ninNoText⟩

/-- A concrete fragment with a Concession Entry block whose name text
sub-field is absent. -/
def fragDgrNoName : ABREl :=
  { abn := some ⟨"51824753556", some "ACT", some "20000101"⟩
    entityType := some ⟨some ⟨"PUB"⟩, some ⟨"Australian Public Company"⟩⟩
    mainEntity := none
    legalEntity := none
    asicNumber := none
    gst := none
    dgr := [dgrEntryNoName]
    otherEntity := [] }

/-- An Alternate Name element whose name text sub-field is absent. -/
def otherEntryNoName : OtherEntityEl := ⟨some ninNoText⟩

/-- A concrete fragment with an Alternate Name block whose name text
sub-field is absent. -/
def fragOtherNoName : ABREl :=
  { abn := some ⟨"51824753556", some "ACT", some "20000101"⟩
    entityType := some ⟨some ⟨"PUB"⟩, some ⟨"Australian Public Company"⟩⟩
    mainEntity := none
    legalEntity := none
    asicNumber := none
    gst := none
    dgr := []
    otherEntity := [otherEntryNoName] }

/-- C4 amended: only the given-name sub-field of the Individual
Registration name degrades to the empty string when absent; for every
other text sub-field the code reads inside a present optional block — the
`State` of a Primary Registration block, the `FamilyName` and `State` of
an Individual Registration block, and the name text of a Concession Entry
or Alternate Name entry — absence makes normalization of the whole
fragment fail instead of producing an empty string. -/
theorem c4_amended_only_given_name_defaults :
    (∀ (soup : ABREl) (ov : Bool) (row : LegalEntity) (le : LegalEntityEl)
      (iname : IndividualNameEl) (fam : TextEl),
      mkLegalEntity soup ov = .ok row →
      soup.legalEntity = some le → le.individualName = some iname →
      iname.familyName = some fam → iname.givenName = none →
      row.legal_entity_name = "" ++ " " ++ fam.text) ∧
    (∀ (soup : ABREl) (me : MainEntityEl) (ba : BusinessAddressEl)
      (ad : AddressDetailsEl),
      soup.mainEntity = some me → me.businessAddress = some ba →
      ba.addressDetails = some ad → ad.state = none →
      ∃ e, generate_bulk_insert soup = .error e) ∧
    (∀ (soup : ABREl) (le : LegalEntityEl) (iname : IndividualNameEl),
      soup.legalEntity = some le → le.individualName = some iname →
      iname.familyName = none →
      ∃ e, generate_bulk_insert soup = .error e) ∧
    (∀ (soup : ABREl) (le : LegalEntityEl) (ba : BusinessAddressEl)
      (ad : AddressDetailsEl),
      soup.legalEntity = some le → le.businessAddress = some ba →
      ba.addressDetails = some ad → ad.state = none →
      ∃ e, generate_bulk_insert soup = .error e) ∧
    (∀ (soup : ABREl) (entry : DgrEl) (nin : NonIndividualNameEl),
      entry ∈ soup.dgr → entry.nonIndividualName = some nin →
      nin.nonIndividualNameText = none →
      ∃ e, generate_bulk_insert soup = .error e) ∧
    (∀ (soup : ABREl) (entry : OtherEntityEl) (nin : NonIndividualNameEl),
      entry ∈ soup.otherEntity → entry.nonIndividualName = some nin →
      nin.nonIndividualNameText = none →
      ∃ e, generate_bulk_insert soup = .error e) := by
  refine ⟨?_, ?_, ?_, ?_, ?_, ?_⟩
  · intro soup ov row le iname fam hmk hle hiname hfam hng
    obtain ⟨le', iname', ba, ad, st, _, hle', hiname', _,
      ⟨fam', hfam', hnm⟩, _⟩ := mkLegalEntity_ok_inv hmk
    rw [hle] at hle'; cases hle'
    rw [hiname] at hiname'; cases hiname'
    rw [hfam] at hfam'; cases hfam'
    rw [hnm, hng]
    rfl
  · intro soup me ba ad hme hba had hstate
    cases hg : generate_bulk_insert soup with
    | error e => exact ⟨e, rfl⟩
    | ok r =>
      exfalso
      obtain ⟨a, habn, haid, hmef, _⟩ := generate_ok_parts hg
      rcases mainEntityField_ok hmef with ⟨_, hnone⟩ | ⟨row, hsome, hblock⟩
      · rw [hme] at hnone; cases hnone
      · rcases exceptValueError_ok hblock with hmk | ⟨_, hmk⟩ <;>
        · obtain ⟨me', nin, ba', ad', st, _, hme', _, _, _, hba', had',
            hst, _⟩ := mkMainEntity_ok_inv hmk
          rw [hme] at hme'; cases hme'
          rw [hba] at hba'; cases hba'
          rw [had] at had'; cases had'
          rw [hstate] at hst
          cases hst
  · intro soup le iname hle hiname hfamnone
    cases hg : generate_bulk_insert soup with
    | error e => exact ⟨e, rfl⟩
    | ok r =>
      exfalso
      obtain ⟨a, habn, haid, hmef, hlef, _⟩ := generate_ok_parts hg
      rcases legalEntityField_ok hlef with ⟨_, hnone⟩ | ⟨row, hsome, hblock⟩
      · rw [hle] at hnone; cases hnone
      · rcases exceptValueError_ok hblock with hmk | ⟨_, hmk⟩ <;>
        · obtain ⟨le', iname', ba, ad, st, _, hle', hiname', _,
            ⟨fam, hfam, _⟩, _⟩ := mkLegalEntity_ok_inv hmk
          rw [hle] at hle'; cases hle'
          rw [hiname] at hiname'; cases hiname'
          rw [hfamnone] at hfam
          cases hfam
  · intro soup le ba ad hle hba had hstate
    cases hg : generate_bulk_insert soup with
    | error e => exact ⟨e, rfl⟩
    | ok r =>
      exfalso
      obtain ⟨a, habn, haid, hmef, hlef, _⟩ := generate_ok_parts hg
      rcases legalEntityField_ok hlef with ⟨_, hnone⟩ | ⟨row, hsome, hblock⟩
      · rw [hle] at hnone; cases hnone
      · rcases exceptValueError_ok hblock with hmk | ⟨_, hmk⟩ <;>
        · obtain ⟨le', iname', ba', ad', st, _, hle', _, _, _, hba', had',
            hst, _⟩ := mkLegalEntity_ok_inv hmk
          rw [hle] at hle'; cases hle'
          rw [hba] at hba'; cases hba'
          rw [had] at had'; cases had'
          rw [hstate] at hst
          cases hst
  · intro soup entry nin hentry hnin hnone
    cases hg : generate_bulk_insert soup with
    | error e => exact ⟨e, rfl⟩
    | ok r =>
      exfalso
      obtain ⟨a, h1, h2, h3, h4, h5, h6, hdf, h8⟩ := generate_ok_parts hg
      rcases dgrField_ok hdf with ⟨_, hdnil⟩ | ⟨rows, hsome, hmap⟩
      · rw [hdnil] at hentry; cases hentry
      · obtain ⟨row, hmk⟩ := mapExcept_ok_of_mem hmap hentry
        obtain ⟨t, ht⟩ := mkDGRentry_ok_nameText hmk hnin
        rw [hnone] at ht
        cases ht
  · intro soup entry nin hentry hnin hnone
    cases hg : generate_bulk_insert soup with
    | error e => exact ⟨e, rfl⟩
    | ok r =>
      exfalso
      obtain ⟨a, h1, h2, h3, h4, h5, h6, h7, hof⟩ := generate_ok_parts hg
      rcases otherEntityField_ok hof with ⟨_, honil⟩ | ⟨rows, hsome, hmap⟩
      · rw [honil] at hentry; cases hentry
      · obtain ⟨row, hmk⟩ := mapExcept_ok_of_mem hmap hentry
        obtain ⟨t, ht⟩ := mkOtherEntityEntry_ok_nameText hmk hnin
        rw [hnone] at ht
        cases ht

/-- Witness for the amended C4: the given-name default at `fragLegal`, and
the five other absent text sub-fields each making normalization of their
concrete fragment fail. -/
theorem c4_amended_only_given_name_defaults_witness :
    mkLegalEntity fragLegal false = .ok rowLegalNoGiven ∧
    rowLegalNoGiven.legal_entity_name = "" ++ " " ++ TextEl.text ⟨"SMITH"⟩ ∧
    isOkE (generate_bulk_insert fragNoState) = false ∧
    isOkE (generate_bulk_insert fragNoFam) = false ∧
    isOkE (generate_bulk_insert fragLegalNoState) = false ∧
    isOkE (generate_bulk_insert fragDgrNoName) = false ∧
    isOkE (generate_bulk_insert fragOtherNoName) = false := by
  refine ⟨rfl,
    c4_amended_only_given_name_defaults.1 fragLegal false rowLegalNoGiven
      leNoGiven inameNoGiven ⟨"SMITH"⟩ rfl rfl rfl rfl rfl,
    ?_, ?_, ?_, ?_, ?_⟩
  · obtain ⟨e, he⟩ := c4_amended_only_given_name_defaults.2.1 fragNoState
      meNoState baNoState adNoState rfl rfl rfl rfl
    rw [he]
    rfl
  · obtain ⟨e, he⟩ := c4_amended_only_given_name_defaults.2.2.1 fragNoFam
      leNoFam inameNoFam rfl rfl rfl
    rw [he]
    rfl
  · obtain ⟨e, he⟩ := c4_amended_only_given_name_defaults.2.2.2.1
      fragLegalNoState leNoState baNoState adNoState rfl rfl rfl rfl
    rw [he]
    rfl
  · obtain ⟨e, he⟩ := c4_amended_only_given_name_defaults.2.2.2.2.1
      fragDgrNoName dgrEntryNoName ninNoText (List.mem_singleton.mpr rfl)
      rfl rfl
    rw [he]
    rfl
  · obtain ⟨e, he⟩ := c4_amended_only_given_name_defaults.2.2.2.2.2
      fragOtherNoName otherEntryNoName ninNoText (List.mem_singleton.mpr rfl)
      rfl rfl
    rw [he]
    rfl

/-- Sorting a dict's items does not change whether some value is truthy. -/
theorem anyTruthy_canon (d : PyDict) : anyTruthy (canonDict d) = anyTruthy d := by
  have hperm : List.Perm (canonDict d) d :=
    List.perm_insertionSort (fun a b : String × PyVal => strLe a.1 b.1 = true) d
  unfold anyTruthy
  rw [Bool.eq_iff_iff]
  simp only [List.any_eq_true]
  constructor
  · rintro ⟨x, hx, hpx⟩
    exact ⟨x, hperm.mem_iff.mp hx, hpx⟩
  · rintro ⟨x, hx, hpx⟩
    exact ⟨x, hperm.mem_iff.mpr hx, hpx⟩

/-- C6: deduplication keeps each structurally identical entry exactly once
(two identical entries collapse to one), removes every entry all of whose
field values are falsy, and keeps both of two entries that differ in any
field. -/
theorem c6_remove_duplicates_collapses_and_filters :
    ∀ (l : List PyDict) (d d₁ d₂ : PyDict),
      ((remove_duplicates l).Nodup ∧
        (d ∈ l → anyTruthy d = true → canonDict d ∈ remove_duplicates l)) ∧
      (anyTruthy d = false → canonDict d ∉ remove_duplicates l) ∧
      (d₁ ∈ l → d₂ ∈ l → anyTruthy d₁ = true → anyTruthy d₂ = true →
        canonDict d₁ ≠ canonDict d₂ →
        canonDict d₁ ∈ remove_duplicates l ∧
        canonDict d₂ ∈ remove_duplicates l) := by
  intro l d d₁ d₂
  refine ⟨⟨List.nodup_dedup _, ?_⟩, ?_, ?_⟩
  · intro hd htr
    unfold remove_duplicates
    exact List.mem_dedup.mpr (List.mem_map_of_mem canonDict
      (List.mem_filter.mpr ⟨hd, htr⟩))
  · intro hfal hmem
    unfold remove_duplicates at hmem
    rw [List.mem_dedup] at hmem
    obtain ⟨d', hd', hcanon⟩ := List.mem_map.mp hmem
    have hd'tr := (List.mem_filter.mp hd').2
    have heq : anyTruthy (canonDict d') = anyTruthy (canonDict d) := by
      rw [hcanon]
    rw [anyTruthy_canon, anyTruthy_canon, hd'tr, hfal] at heq
    cases heq
  · intro h1 h2 t1 t2 hne
    exact ⟨List.mem_dedup.mpr (List.mem_map_of_mem _
        (List.mem_filter.mpr ⟨h1, t1⟩)),
      List.mem_dedup.mpr (List.mem_map_of_mem _
        (List.mem_filter.mpr ⟨h2, t2⟩))⟩

/-- A Concession Entry row dict appearing twice in the C6 witness batch. -/
def dictA : PyDict := toDictDGR ⟨51824753556, ⟨2000, 1, 1⟩, "ACME FUND"⟩

/-- A row dict differing from `dictA` in the name field only. -/
def dictC : PyDict := toDictDGR ⟨51824753556, ⟨2000, 1, 1⟩, "OTHER FUND"⟩

/-- A row dict all of whose values are falsy. -/
def dictF : PyDict := [("abn_id", .intV 0), ("name", .strV "")]

/-- The C6 witness batch: a duplicate pair, a distinct entry, and an
all-falsy entry. -/
def batchC6 : List PyDict := [dictA, dictA, dictC, dictF]

/-- Witness for C6 at the concrete batch `batchC6`. -/
theorem c6_remove_duplicates_collapses_and_filters_witness :
    (remove_duplicates batchC6).Nodup ∧
    canonDict dictA ∈ remove_duplicates batchC6 ∧
    canonDict dictF ∉ remove_duplicates batchC6 ∧
    canonDict dictC ∈ remove_duplicates batchC6 :=
  ⟨(c6_remove_duplicates_collapses_and_filters batchC6 dictA dictA dictC).1.1,
   (c6_remove_duplicates_collapses_and_filters batchC6 dictA dictA dictC).1.2
      (by decide) (by decide),
   (c6_remove_duplicates_collapses_and_filters batchC6 dictF dictA dictC).2.1
      (by decide),
   ((c6_remove_duplicates_collapses_and_filters batchC6 dictA dictA dictC).2.2
      (by decide) (by decide) (by decide) (by decide) (by decide)).2⟩

/-- A fragment populating every entity kind, so that a per-file bulk
insert has no empty batch and every insert statement succeeds. -/
def fragComplete1 : ABREl :=
  { abn := some ⟨"51824753556", some "ACT", some "20000101"⟩
    entityType := some ⟨some ⟨"PUB"⟩, some ⟨"Australian Public Company"⟩⟩
    mainEntity := some
      ⟨some ⟨some "MN", "ACME PTY LTD", none⟩,
       some ⟨some ⟨some ⟨"NSW"⟩, some ⟨"2000"⟩⟩⟩⟩
    legalEntity := some
      ⟨some ⟨some "IND", some ⟨"JANE"⟩, some ⟨"DOE"⟩⟩,
       some ⟨some ⟨some ⟨"NSW"⟩, some ⟨"2000"⟩⟩⟩⟩
    asicNumber := some ⟨"123456789", some "APTY"⟩
    gst := some ⟨some "ACT", some "20000101"⟩
    dgr := [⟨some "20000101", some ⟨none, "", some ⟨"ACME FUND"⟩⟩⟩]
    otherEntity := [⟨some ⟨some "TRD", "", some ⟨"ACME TRADING"⟩⟩⟩] }

/-- A second all-kinds fragment with a different identifier. -/
def fragComplete2 : ABREl :=
  { abn := some ⟨"11000002568", some "ACT", some "20010203"⟩
    entityType := some ⟨some ⟨"PRV"⟩, some ⟨"Private Company"⟩⟩
    mainEntity := some
      ⟨some ⟨some "MN", "WIDGET PTY LTD", none⟩,
       some ⟨some ⟨some ⟨"VIC"⟩, some ⟨"3000"⟩⟩⟩⟩
    legalEntity := some
      ⟨some ⟨some "IND", some ⟨"JOHN"⟩, some ⟨"ROE"⟩⟩,
       some ⟨some ⟨some ⟨"VIC"⟩, some ⟨"3000"⟩⟩⟩⟩
    asicNumber := some ⟨"987654321", some "APTY"⟩
    gst := some ⟨some "CAN", some "20010203"⟩
    dgr := [⟨some "20010203", some ⟨none, "", some ⟨"WIDGET FUND"⟩⟩⟩]
    otherEntity := [⟨some ⟨some "OTN", "", some ⟨"WIDGET TRADING"⟩⟩⟩] }

/-- A one-file directory whose file normalizes and inserts cleanly. -/
def dirOneComplete : List DirEntry :=
  [.fileEntry "20991231_Public01.xml" [some fragComplete1]]

/-- Insert statement sequences contain no purge statement. -/
theorem filter_isPurge_insertOpsOf (l : List Records) :
    (insertOpsOf l).filter RunOp.isPurge = [] := by
  induction l with
  | nil => rfl
  | cons r t ih =>
    simp only [insertOpsOf]
    rw [List.filter_append, ih, List.append_nil]
    rfl

/-- C8 counterexample: the job graph does not order the purge before the
load, and in the admissible schedule that runs `process_files` first the
statement trace has all seven insert statements before any purge
statement; that run ends with the purge wiping the rows it just loaded. -/
theorem c8_counterexample_load_can_precede_purge :
    (run_ops JobOrder.loadThenPurge emptyStore dirOneComplete).map RunOp.isPurge
      = [false, false, false, false, false, false, false,
         true, true, true, true, true, true, true] ∧
    (extract_and_load JobOrder.loadThenPurge emptyStore dirOneComplete).err
      = none ∧
    (extract_and_load JobOrder.loadThenPurge emptyStore dirOneComplete).store
      = emptyStore :=
  ⟨rfl, rfl, rfl⟩

/-- C8 amended: within `delete_records` the deletes run children before
parent in one transaction that empties every table, with no intermediate
state in which the parent table has been touched while a child row
survives, and every admissible schedule executes the seven purge
statements exactly once; but the job graph leaves the purge unordered
relative to the load, so the purge precedes all insert statements only in
the schedule that happens to run it first. -/
theorem c8_amended_purge_ordered_only_within_its_transaction :
    ∀ (s : Store) (dir : List DirEntry),
      (∃ rest, run_ops JobOrder.purgeThenLoad s dir =
          delete_records_stmts.map RunOp.purgeStmt ++ rest ∧
          ∀ op ∈ rest, RunOp.isPurge op = false) ∧
      (∀ ord : JobOrder, (run_ops ord s dir).filter RunOp.isPurge =
          delete_records_stmts.map RunOp.purgeStmt) ∧
      delete_records s = emptyStore ∧
      (∀ st ∈ deleteStates s, st.abn = s.abn ∨
        (st.main_entity = [] ∧ st.legal_entity = [] ∧ st.asic_number = [] ∧
         st.gst = [] ∧ st.dgr = [] ∧ st.other_entity = [])) := by
  intro s dir
  refine ⟨⟨_, rfl, ?_⟩, ?_, rfl, ?_⟩
  · intro op hop
    rw [Bool.eq_false_iff]
    intro hp
    have hmem : op ∈ (insertOpsOf
        (extract_and_load .purgeThenLoad s dir).inserts).filter RunOp.isPurge :=
      List.mem_filter.mpr ⟨hop, hp⟩
    rw [filter_isPurge_insertOpsOf] at hmem
    cases hmem
  · intro ord
    cases ord with
    | purgeThenLoad =>
      simp only [run_ops]
      rw [List.filter_append, filter_isPurge_insertOpsOf, List.append_nil]
      rfl
    | loadThenPurge =>
      simp only [run_ops]
      rw [List.filter_append, filter_isPurge_insertOpsOf, List.nil_append]
      rfl
  · intro st hst
    simp only [deleteStates, List.mem_map, List.mem_range] at hst
    obtain ⟨k, hk, hst⟩ := hst
    have hk8 : k < 8 := by simpa [delete_records_stmts] using hk
    clear hk
    interval_cases k <;> cases hst <;>
      first
      | (left; rfl)
      | (right; exact ⟨rfl, rfl, rfl, rfl, rfl, rfl⟩)

/-- A concrete pre-run store with one row in every table. -/
def s0C8 : Store :=
  ⟨[dictA], [dictA], [dictA], [dictA], [dictA], [dictA], [dictA]⟩

/-- Witness for the amended C8 at the concrete store `s0C8`. -/
theorem c8_amended_purge_ordered_only_within_its_transaction_witness :
    (run_ops JobOrder.purgeThenLoad s0C8 []).filter RunOp.isPurge =
      delete_records_stmts.map RunOp.purgeStmt ∧
    delete_records s0C8 = emptyStore ∧
    (emptyStore.abn = s0C8.abn ∨
      (emptyStore.main_entity = [] ∧ emptyStore.legal_entity = [] ∧
       emptyStore.asic_number = [] ∧ emptyStore.gst = [] ∧
       emptyStore.dgr = [] ∧ emptyStore.other_entity = [])) :=
  ⟨(c8_amended_purge_ordered_only_within_its_transaction s0C8 []).2.1
      JobOrder.purgeThenLoad,
   (c8_amended_purge_ordered_only_within_its_transaction s0C8 []).2.2.1,
   (c8_amended_purge_ordered_only_within_its_transaction s0C8 []).2.2.2
      emptyStore (by decide)⟩

/-- The single-file directory of the C9 demonstration: one file of two
scanner-rejected lines. -/
def dirC9 : List DirEntry := [.fileEntry "20991231_Public01.xml" [none, none]]

/-- C9 demonstration: a file with zero valid fragments accumulates the
empty per-kind batches; `bulk_insert` then runs
`session.execute(insert(Table), [])`, whose empty parameter list makes the
statement raise instead of inserting zero rows — so the run aborts and the
file is NOT deleted, where the claim expects an error-free completion with
the file removed. -/
theorem c9_zero_fragment_file_aborts_and_is_not_deleted :
    fileRecords emptyRecords [none, none] = .ok emptyRecords ∧
    bulk_insert emptyStore (dedupePayload emptyRecords) =
      .error .integrityError ∧
    process_files emptyStore dirC9 =
      ⟨emptyStore, [], [], [], some .integrityError⟩ :=
  ⟨rfl, rfl, rfl⟩

/-- Whether a directory entry is a file. -/
def isFileEntry : DirEntry → Bool
  | .fileEntry _ _ => true
  | .subdir _ => false

/-- The two-file directory used against C3 and by the C3 witness; both
files populate every entity kind, so both per-file inserts succeed. -/
def dirTwo : List DirEntry :=
  [.fileEntry "20991231_Public01.xml" [some fragComplete1],
   .fileEntry "20991231_Public02.xml" [some fragComplete2]]

/-- C3 counterexample: a clean run over a two-file directory performs two
`bulk_insert` calls — two insert statements per entity kind — and each
call's Business Record batch holds only that file's single record, not the
run-accumulated batch of two. -/
theorem c3_counterexample_two_files_two_insert_calls :
    (process_files emptyStore dirTwo).err = none ∧
    (process_files emptyStore dirTwo).inserts.length = 2 ∧
    (process_files emptyStore dirTwo).inserts.map (fun r => r.abn.length)
      = [1, 1] :=
  ⟨rfl, rfl, rfl⟩

/-- Directory-loop equation: a subdirectory is skipped. -/
theorem processFilesGo_subdir (s : Store) (ins : List Records)
    (del : List String) (nm : String) (rest : List DirEntry) :
    processFilesGo s ins del (.subdir nm :: rest) =
      processFilesGo s ins del rest := rfl

/-- Directory-loop equation: a file whose normalization raises aborts the
run. -/
theorem processFilesGo_fileEntry_fileErr {lines : List ParsedLine} {e : PyErr}
    (s : Store) (ins : List Records) (del : List String) (nm : String)
    (rest : List DirEntry) (hf : fileRecords emptyRecords lines = .error e) :
    processFilesGo s ins del (.fileEntry nm lines :: rest) =
      ⟨s, ins, del, [], some e⟩ := by
  unfold processFilesGo
  simp only [hf]

/-- Directory-loop equation: a file whose bulk insert raises aborts the
run. -/
theorem processFilesGo_fileEntry_insErr {lines : List ParsedLine}
    {recs : Records} {e : PyErr} (s : Store) (ins : List Records)
    (del : List String) (nm : String) (rest : List DirEntry)
    (hf : fileRecords emptyRecords lines = .ok recs)
    (hb : bulk_insert s (dedupePayload recs) = .error e) :
    processFilesGo s ins del (.fileEntry nm lines :: rest) =
      ⟨s, ins, del, [], some e⟩ := by
  unfold processFilesGo
  simp only [hf, hb]

/-- Directory-loop equation: a fully successful file commits its insert
and is deleted, and the loop continues. -/
theorem processFilesGo_fileEntry_ok {lines : List ParsedLine} {recs : Records}
    {s2 : Store} (s : Store) (ins : List Records) (del : List String)
    (nm : String) (rest : List DirEntry)
    (hf : fileRecords emptyRecords lines = .ok recs)
    (hb : bulk_insert s (dedupePayload recs) = .ok s2) :
    processFilesGo s ins del (.fileEntry nm lines :: rest) =
      processFilesGo s2 (ins ++ [dedupePayload recs]) (del ++ [nm]) rest := by
  conv_lhs => rw [processFilesGo]
  simp only [hf, hb]

/-- In a run with no uncaught exception, the directory loop makes exactly
one `bulk_insert` call per file. -/
theorem processFilesGo_inserts_length :
    ∀ (dir : List DirEntry) (s : Store) (ins : List Records)
      (del : List String), (processFilesGo s ins del dir).err = none →
      (processFilesGo s ins del dir).inserts.length =
        ins.length + dir.countP isFileEntry := by
  intro dir
  induction dir with
  | nil => intro s ins del _; simp [processFilesGo]
  | cons e rest ih =>
    intro s ins del herr
    cases e with
    | subdir nm =>
      rw [processFilesGo_subdir] at herr ⊢
      rw [List.countP_cons_of_neg isFileEntry _
        (by simp [isFileEntry] : ¬isFileEntry (DirEntry.subdir nm) = true)]
      exact ih s ins del herr
    | fileEntry nm lines =>
      cases hf : fileRecords emptyRecords lines with
      | error e =>
        rw [processFilesGo_fileEntry_fileErr s ins del nm rest hf] at herr
        exact Option.noConfusion herr
      | ok recs =>
        cases hb : bulk_insert s (dedupePayload recs) with
        | error e =>
          rw [processFilesGo_fileEntry_insErr s ins del nm rest hf hb] at herr
          exact Option.noConfusion herr
        | ok s2 =>
          rw [processFilesGo_fileEntry_ok s ins del nm rest hf hb] at herr ⊢
          rw [ih s2 (ins ++ [dedupePayload recs]) (del ++ [nm]) herr,
            List.countP_cons_of_pos isFileEntry _
              (rfl : isFileEntry (DirEntry.fileEntry nm lines) = true)]
          simp
          omega

/-- C3 amended: each `bulk_insert` call issues exactly one insert statement
per entity kind, parent table (`abn`) first, and a run with no uncaught
exception performs exactly one such call per file of the directory — the
batch granularity is the file, not the run. -/
theorem c3_amended_one_insert_call_per_file :
    (∀ r : Records, (bulk_insert_stmts r).map Prod.fst =
      [TableId.abn, .main_entity, .legal_entity, .asic_number, .gst, .dgr,
       .other_entity]) ∧
    (∀ (s : Store) (dir : List DirEntry), (process_files s dir).err = none →
      (process_files s dir).inserts.length = dir.countP isFileEntry) := by
  constructor
  · intro r
    rfl
  · intro s dir herr
    have := processFilesGo_inserts_length dir s [] [] herr
    simpa using this

/-- Witness for the amended C3 at the concrete directory `dirTwo`. -/
theorem c3_amended_one_insert_call_per_file_witness :
    ((bulk_insert_stmts emptyRecords).map Prod.fst =
      [TableId.abn, .main_entity, .legal_entity, .asic_number, .gst, .dgr,
       .other_entity]) ∧
    (process_files emptyStore dirTwo).inserts.length = dirTwo.countP isFileEntry :=
  ⟨c3_amended_one_insert_call_per_file.1 emptyRecords,
   c3_amended_one_insert_call_per_file.2 emptyStore dirTwo rfl⟩

/-- The non-empty pre-run store used against C1. -/
def s0C1 : Store := ⟨[dictA], [], [], [], [], [], []⟩

/-- The single-file directory used against C1: its file normalizes and
inserts cleanly, so the purge-first run has two committed transactions. -/
def dirC1 : List DirEntry := [.fileEntry "20991231_Public01.xml" [some fragComplete1]]

/-- C1 demonstration: the run commits the purge (and each file's inserts)
as separate transactions, so when the run fails inside its second
transaction (the first file's bulk insert), the committed store is the
purged, empty store — not the pre-run store the claim requires. -/
theorem c1_failure_not_rolled_back_to_prerun_state :
    1 < (run_txns s0C1 dirC1).length ∧
    committedAfterFailure s0C1 dirC1 1 = emptyStore ∧
    committedAfterFailure s0C1 dirC1 1 ≠ s0C1 := by
  refine ⟨by decide, rfl, by decide⟩

/-- A fragment whose required `ABN` identifier element is absent. -/
def fragNoAbn : ABREl :=
  { abn := none
    entityType := some ⟨some ⟨"PUB"⟩, some ⟨"Australian Public Company"⟩⟩
    mainEntity := none
    legalEntity := none
    asicNumber := none
    gst := none
    dgr := []
    otherEntity := [] }

/-- The directory used against C2: one file whose first line is missing the
identifier and whose second line is a fully valid fragment. -/
def dirC2 : List DirEntry :=
  [.fileEntry "20991231_Public01.xml" [some fragNoAbn, some fragFull]]

/-- C2 demonstration: a fragment missing the required identifier makes
`generate_bulk_insert` raise, and the uncaught exception aborts the whole
run — nothing is inserted, nothing is written to the error sink, the file
is not deleted, and the following valid fragment is never processed. -/
theorem c2_missing_required_field_aborts_whole_run :
    generate_bulk_insert fragNoAbn = .error .noneError ∧
    process_files emptyStore dirC2 =
      ⟨emptyStore, [], [], [], some .noneError⟩ :=
  ⟨rfl, rfl⟩
